import Mathlib

/-!
University qualification calculator: scoring and validation.

A shallow embedding of the worker of the qualification calculator
(`src/worker/worker.js`): `validateInputData`, `calculateQualificationPoints`,
`calculateFieldPoints`, `calculatePublicationPoints`, `checkRequiredPublication`
and `handleCalculate`, followed by theorems about them.

Modelling conventions.

* A request record is a JSON object.  It is a function from key to value,
  an absent key being `Val.undefined`.
* The worker is embedded twice.  In the first embedding JavaScript numbers are
  exact: integers are `Int`, point values are `ℚ`.  All arithmetic of the
  worker is on integers and on multiples of `0.25`, on which IEEE doubles are
  exact below `2^51`, so this embedding is the worker on every record whose
  counts stay in that range.  The second embedding, in the namespace `Doubles`,
  computes in double precision, with rounding to nearest, the two infinities
  and `NaN`; it is used where the rounding of a sum or a value that is not
  finite decides the property.
* `new Date().toISOString()` is an argument `now` of the functions that read
  the clock.
-/

namespace QualificationApp

/-! ## JavaScript values and the built-in coercions the worker relies on -/

/-- A value stored under a key of the request record.  `num` is a JSON number
with an integer value, of a magnitude for which `String(value)` is its decimal
numeral (below `10^21`); `obj` is an array or object, carried with the text
that `String(value)` gives for it. -/
inductive Val where
  | undefined
  | null
  | bool (b : Bool)
  | num (n : Int)
  | str (s : String)
  | obj (text : String)
deriving DecidableEq

/-- The request record `data`; `data key` is `data[key]`. -/
abbrev Data := String → Val

/-- JavaScript truthiness (`ToBoolean`), as used by `!x`, `x && y`, `x || y`. -/
def truthy : Val → Bool
  | .undefined => false
  | .null => false
  | .bool b => b
  | .num n => decide (n ≠ 0)
  | .str s => decide (s ≠ "")
  | .obj _ => true

/-- The characters skipped by `parseInt` before the number and removed by
`String.prototype.trim`: ECMAScript white space and line terminators. -/
def isStrWhiteSpaceChar (c : Char) : Bool :=
  let n := c.toNat
  n == 0x09 || n == 0x0A || n == 0x0B || n == 0x0C || n == 0x0D || n == 0x20 ||
  n == 0xA0 || n == 0x1680 || (0x2000 ≤ n && n ≤ 0x200A) || n == 0x2028 ||
  n == 0x2029 || n == 0x202F || n == 0x205F || n == 0x3000 || n == 0xFEFF

/-- The value of `c` as a digit of the given radix, if it is one. -/
def digitValue (radix : Nat) (c : Char) : Option Nat :=
  let n := c.toNat
  let d : Option Nat :=
    if 48 ≤ n ∧ n ≤ 57 then some (n - 48)
    else if 97 ≤ n ∧ n ≤ 122 then some (n - 97 + 10)
    else if 65 ≤ n ∧ n ≤ 90 then some (n - 65 + 10)
    else none
  match d with
  | some v => if v < radix then some v else none
  | none => none

/-- The longest prefix of the text made of digits of the radix. -/
def takeDigits (radix : Nat) : List Char → List Nat
  | [] => []
  | c :: cs =>
    match digitValue radix c with
    | some d => d :: takeDigits radix cs
    | none => []

/-- The number written by a list of digits, most significant first. -/
def digitsValue (radix : Nat) (ds : List Nat) : Nat :=
  ds.foldl (fun acc d => acc * radix + d) 0

/-- The sign read by `parseInt` and the text after it. -/
def splitSign : List Char → Int × List Char
  | '-' :: rest => (-1, rest)
  | '+' :: rest => (1, rest)
  | cs => (1, cs)

/-- The radix chosen by `parseInt` without a radix argument (16 after a `0x`
or `0X` prefix, which is removed, else 10) and the text after the prefix. -/
def splitRadix : List Char → Nat × List Char
  | '0' :: 'x' :: rest => (16, rest)
  | '0' :: 'X' :: rest => (16, rest)
  | cs => (10, cs)

/-- The built-in `parseInt(string)` on a string: `none` is `NaN`. -/
def parseIntString (s : String) : Option Int :=
  let afterSpace := s.toList.dropWhile isStrWhiteSpaceChar
  let signed := splitSign afterSpace
  let prefixed := splitRadix signed.2
  let digits := takeDigits prefixed.1 prefixed.2
  if digits = [] then none else some (signed.1 * (digitsValue prefixed.1 digits : Int))

/-- The built-in `String(value)`. -/
def toStringJS : Val → String
  | .undefined => "undefined"
  | .null => "null"
  | .bool true => "true"
  | .bool false => "false"
  | .num n => toString n
  | .str s => s
  | .obj text => text

/-- The built-in `parseInt(value)`: the argument is converted to a string and
parsed; `none` is `NaN`. -/
def parseInt (v : Val) : Option Int :=
  parseIntString (toStringJS v)

/-- The expression `parseInt(value) || 0`: `NaN` and `0` both give `0`. -/
def parseIntOrZero (v : Val) : Int :=
  (parseInt v).getD 0

/-- The built-in `Math.round` on an exact number: the nearest integer, a half
rounding towards positive infinity. -/
def mathRound (x : ℚ) : Int :=
  ⌊x + 1 / 2⌋

/-- The built-in `String.prototype.trim`. -/
def jsTrim (s : String) : String :=
  String.mk ((s.toList.dropWhile isStrWhiteSpaceChar).reverse.dropWhile isStrWhiteSpaceChar).reverse

/-! ## The point table -/

/-- One rule of the point table: `{ points, max }`, `max` being `null` or a
number. -/
structure PointRule where
  points : ℚ
  max : Option ℚ
deriving DecidableEq

/-- The shape of the object literal `pointsConfig`. -/
structure PointsConfig where
  lessonsPerYear : PointRule
  guidedWorks : PointRule
  practicalWorks : PointRule
  onlineLessons : PointRule
  printedLessons : PointRule
  pedagogicalPublications : PointRule
  supervisionYears : PointRule
  internshipFollowUp : PointRule
  universityEnvironment : PointRule
  pedagogicalAnimation : PointRule
  thesisSupervision : PointRule
  categoryAPlus : PointRule
  categoryA : PointRule
  categoryB : PointRule
  categoryC : PointRule
  internationalPatents : PointRule
  nationalPatents : PointRule
  internationalConferences : PointRule
  indexedProceedings : PointRule
  nationalConferences : PointRule
  phdSupervision : PointRule
  scientificPublications : PointRule
  phdTraining : PointRule
  eventOrganization : PointRule
  internationalProjects : PointRule
  scientificActivities : PointRule
  researchActivities : PointRule
deriving DecidableEq

/-- The table `pointsConfig` of `calculateQualificationPoints`. -/
def pointsConfig : PointsConfig where
  lessonsPerYear := ⟨15, some 45⟩
  guidedWorks := ⟨8, some 24⟩
  practicalWorks := ⟨5, some 15⟩
  onlineLessons := ⟨15, none⟩
  printedLessons := ⟨12, some 24⟩
  pedagogicalPublications := ⟨30, none⟩
  supervisionYears := ⟨3, some 9⟩
  internshipFollowUp := ⟨6, some 18⟩
  universityEnvironment := ⟨5, none⟩
  pedagogicalAnimation := ⟨5, none⟩
  thesisSupervision := ⟨9, some 27⟩
  categoryAPlus := ⟨100, none⟩
  categoryA := ⟨90, none⟩
  categoryB := ⟨60, none⟩
  categoryC := ⟨40, some 80⟩
  internationalPatents := ⟨40, none⟩
  nationalPatents := ⟨20, none⟩
  internationalConferences := ⟨20, some 40⟩
  indexedProceedings := ⟨5, none⟩
  nationalConferences := ⟨10, some 20⟩
  phdSupervision := ⟨20, none⟩
  scientificPublications := ⟨20, none⟩
  phdTraining := ⟨15, none⟩
  eventOrganization := ⟨5, some 10⟩
  internationalProjects := ⟨5, some 10⟩
  scientificActivities := ⟨5, some 15⟩
  researchActivities := ⟨5, some 10⟩

/-- The rules of the 23 simple activity fields, in the order in which
`calculateQualificationPoints` scores them. -/
def simpleFieldRules : List PointRule :=
  [pointsConfig.lessonsPerYear, pointsConfig.guidedWorks, pointsConfig.practicalWorks,
   pointsConfig.onlineLessons, pointsConfig.printedLessons,
   pointsConfig.pedagogicalPublications, pointsConfig.supervisionYears,
   pointsConfig.internshipFollowUp, pointsConfig.universityEnvironment,
   pointsConfig.pedagogicalAnimation, pointsConfig.thesisSupervision,
   pointsConfig.internationalPatents, pointsConfig.nationalPatents,
   pointsConfig.internationalConferences, pointsConfig.indexedProceedings,
   pointsConfig.nationalConferences, pointsConfig.phdSupervision,
   pointsConfig.scientificPublications, pointsConfig.phdTraining,
   pointsConfig.eventOrganization, pointsConfig.internationalProjects,
   pointsConfig.scientificActivities, pointsConfig.researchActivities]

/-! ## Breakdown entries and the result -/

/-- The `details` object of a publication entry. -/
structure Details where
  firstAuthor : Int
  secondAuthor : Int
  thirdAuthorPlus : Int
deriving DecidableEq

/-- One entry of the breakdown; `details` is present on publication entries
only. -/
structure Entry where
  name : String
  points : Int
  count : Int
  details : Option Details
deriving DecidableEq

/-- The object returned by `calculateQualificationPoints`. -/
structure ScoreResult where
  totalPoints : Int
  eligible : Bool
  eligibilityReason : String
  breakdown : List Entry
  teachingYears : Int
  hasRequiredPublication : Bool
  calculatedAt : String
deriving DecidableEq

/-! ## Scoring -/

/-- The method `calculateFieldPoints(value, config, name, breakdown)`: the
returned points and the breakdown array after the call. -/
def calculateFieldPoints (value : Val) (config : PointRule) (name : String)
    (breakdown : List Entry) : ℚ × List Entry :=
  let count := parseIntOrZero value
  if count ≤ 0 then (0, breakdown)
  else
    let points : ℚ := (count : ℚ) * config.points
    let points : ℚ :=
      match config.max with
      | some m => if points > m then m else points
      | none => points
    if points > 0 then
      (points, breakdown ++ [{ name := name, points := mathRound points, count := count,
                               details := none }])
    else (points, breakdown)

/-- The method `calculatePublicationPoints(first, second, third, basePoints,
maxPoints, name, breakdown)`: the returned points and the breakdown array after
the call. -/
def calculatePublicationPoints (first second third : Val) (basePoints : ℚ)
    (maxPoints : Option ℚ) (name : String) (breakdown : List Entry) : ℚ × List Entry :=
  let firstCount := parseIntOrZero first
  let secondCount := parseIntOrZero second
  let thirdCount := parseIntOrZero third
  let points : ℚ :=
    ((firstCount : ℚ) * basePoints) + ((secondCount : ℚ) * basePoints * (1 / 2)) +
      ((thirdCount : ℚ) * basePoints * (1 / 4))
  let points : ℚ :=
    match maxPoints with
    | some m => if points > m then m else points
    | none => points
  let totalCount := firstCount + secondCount + thirdCount
  if points > 0 then
    (points, breakdown ++ [{ name := name, points := mathRound points, count := totalCount,
                             details := some { firstAuthor := firstCount,
                                               secondAuthor := secondCount,
                                               thirdAuthorPlus := thirdCount } }])
  else (points, breakdown)

/-- The method `checkRequiredPublication(data)`. -/
def checkRequiredPublication (data : Data) : Bool :=
  let specialization := data "specialization"
  let aPlusTotal := parseIntOrZero (data "categoryAPlusFirst") +
    parseIntOrZero (data "categoryAPlusSecond") + parseIntOrZero (data "categoryAPlusThird")
  let aTotal := parseIntOrZero (data "categoryAFirst") +
    parseIntOrZero (data "categoryASecond") + parseIntOrZero (data "categoryAThird")
  let bTotal := parseIntOrZero (data "categoryBFirst") +
    parseIntOrZero (data "categoryBSecond") + parseIntOrZero (data "categoryBThird")
  let cTotal := parseIntOrZero (data "categoryCFirst") +
    parseIntOrZero (data "categoryCSecond") + parseIntOrZero (data "categoryCThird")
  if specialization = Val.str "sciences" then
    decide (aPlusTotal > 0) || decide (aTotal > 0) || decide (bTotal > 0)
  else if specialization = Val.str "humanities" then
    decide (aPlusTotal > 0) || decide (aTotal > 0) || decide (bTotal > 0) || decide (cTotal > 0)
  else false

/-- One statement `totalPoints += this.calculateFieldPoints(value, config,
name, breakdown)` on the pair of `totalPoints` and `breakdown`. -/
def addField (st : ℚ × List Entry) (value : Val) (config : PointRule) (name : String) :
    ℚ × List Entry :=
  let r := calculateFieldPoints value config name st.2
  (st.1 + r.1, r.2)

/-- One statement `totalPoints += this.calculatePublicationPoints(first,
second, third, rule.points, rule.max, name, breakdown)` on the pair of
`totalPoints` and `breakdown`. -/
def addPublication (st : ℚ × List Entry) (first second third : Val) (rule : PointRule)
    (name : String) : ℚ × List Entry :=
  let r := calculatePublicationPoints first second third rule.points rule.max name st.2
  (st.1 + r.1, r.2)

/-- The first part of `calculateQualificationPoints`: `totalPoints` and
`breakdown` after the 27 scoring statements, before rounding and sorting. -/
def accumulatePoints (data : Data) : ℚ × List Entry :=
  let st : ℚ × List Entry := (0, [])
  let st := addField st (data "lessonsPerYear") pointsConfig.lessonsPerYear "الدروس السنوية"
  let st := addField st (data "guidedWorks") pointsConfig.guidedWorks "الأعمال الموجهة"
  let st := addField st (data "practicalWorks") pointsConfig.practicalWorks "الأعمال التطبيقية"
  let st := addField st (data "onlineLessons") pointsConfig.onlineLessons "دروس عبر الخط"
  let st := addField st (data "printedLessons") pointsConfig.printedLessons "مطبوعة دروس"
  let st := addField st (data "pedagogicalPublications") pointsConfig.pedagogicalPublications
    "نشر مؤلفات بيداغوجية"
  let st := addField st (data "supervisionYears") pointsConfig.supervisionYears "القيام بالوصاية"
  let st := addField st (data "internshipFollowUp") pointsConfig.internshipFollowUp
    "متابعة الطلبة المتربصين"
  let st := addField st (data "universityEnvironment") pointsConfig.universityEnvironment
    "المشاركة في العلاقة مع المحيط"
  let st := addField st (data "pedagogicalAnimation") pointsConfig.pedagogicalAnimation
    "المشاركة في التنشيط البيداغوجي"
  let st := addField st (data "thesisSupervision") pointsConfig.thesisSupervision "تأطير مذكرات"
  let st := addPublication st (data "categoryAPlusFirst") (data "categoryAPlusSecond")
    (data "categoryAPlusThird") pointsConfig.categoryAPlus "مقالات الصنف \"أ+\" الدولية"
  let st := addPublication st (data "categoryAFirst") (data "categoryASecond")
    (data "categoryAThird") pointsConfig.categoryA "مقالات الصنف \"أ\" الدولية"
  let st := addPublication st (data "categoryBFirst") (data "categoryBSecond")
    (data "categoryBThird") pointsConfig.categoryB "مقالات الصنف \"ب\" الدولية"
  let st := addPublication st (data "categoryCFirst") (data "categoryCSecond")
    (data "categoryCThird") pointsConfig.categoryC "مقالات الصنف \"ج\" الوطنية"
  let st := addField st (data "internationalPatents") pointsConfig.internationalPatents
    "براءات الاختراع الدولية"
  let st := addField st (data "nationalPatents") pointsConfig.nationalPatents
    "براءات الاختراع الوطنية"
  let st := addField st (data "internationalConferences") pointsConfig.internationalConferences
    "المداخلات الدولية"
  let st := addField st (data "indexedProceedings") pointsConfig.indexedProceedings
    "مداخلات في proceedings مفهرسة"
  let st := addField st (data "nationalConferences") pointsConfig.nationalConferences
    "المداخلات الوطنية"
  let st := addField st (data "phdSupervision") pointsConfig.phdSupervision
    "الإشراف على أطروحات الدكتوراه"
  let st := addField st (data "scientificPublications") pointsConfig.scientificPublications
    "نشر مؤلفات علمية"
  let st := addField st (data "phdTraining") pointsConfig.phdTraining
    "المشاركة في التكوين في الدكتوراه"
  let st := addField st (data "eventOrganization") pointsConfig.eventOrganization
    "المشاركة في تنظيم نشاط علمي"
  let st := addField st (data "internationalProjects") pointsConfig.internationalProjects
    "مشاريع تعاون دولية"
  let st := addField st (data "scientificActivities") pointsConfig.scientificActivities
    "المشاركة في النشاطات العلمية"
  let st := addField st (data "researchActivities") pointsConfig.researchActivities
    "المشاركة في نشاطات البحث"
  st

/-- The constant `minPoints` of `calculateQualificationPoints`. -/
def minPoints : ℚ := 350

/-- The message of an eligible result. -/
def eligibleMessage : String :=
  "يحقق جميع المتطلبات: نقاط كافية، سنوات تدريس، مقال إجباري"

/-- The text before the list of reasons of an ineligible result. -/
def ineligiblePrefix : String := "غير مؤهل: "

/-- The separator of `reasons.join`. -/
def reasonSeparator : String := "، "

/-- The reason pushed when the points are insufficient. -/
def insufficientPointsText : String := "نقاط غير كافية"

/-- The reason pushed when the teaching years are insufficient. -/
def insufficientYearsText : String := "سنوات تدريس غير كافية"

/-- The reason pushed when the mandatory publication is missing. -/
def missingPublicationText : String := "لا يوجد مقال إجباري"

/-- The array `reasons` built in the `else` branch of the eligibility test. -/
def collectReasons (totalPoints : ℚ) (teachingYears : Int) (hasRequiredPublication : Bool) :
    List String :=
  let reasons : List String := []
  let reasons := if totalPoints < minPoints then reasons ++ [insufficientPointsText] else reasons
  let reasons := if teachingYears < 3 then reasons ++ [insufficientYearsText] else reasons
  let reasons :=
    if !hasRequiredPublication then reasons ++ [missingPublicationText] else reasons
  reasons

/-- The comparator `(a, b) => b.points - a.points` read as an order: `a` may
stand before `b` when `a` has at least the points of `b`. -/
def byPointsDescending (a b : Entry) : Prop :=
  b.points ≤ a.points

instance : DecidableRel byPointsDescending :=
  fun a b => inferInstanceAs (Decidable (b.points ≤ a.points))

/-- The call `breakdown.sort((a, b) => b.points - a.points)`: a stable sort
by descending points. -/
def sortBreakdown (breakdown : List Entry) : List Entry :=
  List.insertionSort byPointsDescending breakdown

/-- The method `calculateQualificationPoints(data)`. -/
def calculateQualificationPoints (now : String) (data : Data) : ScoreResult :=
  let st := accumulatePoints data
  let totalPoints := st.1
  let breakdown := st.2
  let teachingYears := parseIntOrZero (data "teachingYears")
  let hasRequiredPublication := checkRequiredPublication data
  let verdict : Bool × String :=
    if totalPoints ≥ minPoints ∧ teachingYears ≥ 3 ∧ hasRequiredPublication = true then
      (true, eligibleMessage)
    else
      (false, ineligiblePrefix ++
        reasonSeparator.intercalate (collectReasons totalPoints teachingYears hasRequiredPublication))
  let breakdown := sortBreakdown breakdown
  { totalPoints := mathRound totalPoints
    eligible := verdict.1
    eligibilityReason := verdict.2
    breakdown := breakdown.filter (fun item => decide (item.points > 0))
    teachingYears := teachingYears
    hasRequiredPublication := hasRequiredPublication
    calculatedAt := now }

/-! ## Validation and the `/calculate` handler -/

/-- The error thrown when a name is missing. -/
def missingNameMessage : String := "الاسم الأول والاسم الأخير مطلوبان"

/-- The error thrown when the teaching years are below the minimum. -/
def minTeachingYearsMessage : String := "الحد الأدنى لسنوات التدريس هو 3 سنوات"

/-- The error thrown for a strictly validated field whose value is not a number. -/
def invalidValueMessage (field : String) : String :=
  "القيمة في " ++ field ++ " غير صالحة"

/-- The array `numericFields` of `validateInputData`. -/
def numericFields : List String :=
  ["teachingYears", "lessonsPerYear", "guidedWorks", "practicalWorks",
   "categoryAPlusFirst", "categoryAPlusSecond", "categoryAPlusThird"]

/-- The loop `for (const field of numericFields)` of `validateInputData`. -/
def checkNumericFields (data : Data) : List String → Except String Unit
  | [] => Except.ok ()
  | field :: rest =>
    if truthy (data field) && (parseInt (data field)).isNone then
      Except.error (invalidValueMessage field)
    else checkNumericFields data rest

/-- The method `validateInputData(data)`: `Except.error message` is
`throw new Error(message)`. -/
def validateInputData (data : Data) : Except String Unit :=
  if !truthy (data "firstName") || !truthy (data "lastName") then
    Except.error missingNameMessage
  else if !truthy (data "teachingYears") ||
      (match parseInt (data "teachingYears") with
       | some n => decide (n < 3)
       | none => false) then
    Except.error minTeachingYearsMessage
  else checkNumericFields data numericFields

/-- The body of a response of `handleCalculate`, before `JSON.stringify`. -/
inductive ResponseBody where
  | result (r : ScoreResult)
  | failure (error : String) (details : String) (timestamp : String)
deriving DecidableEq

/-- A response: its status (200 when the handler gives none) and its body. -/
structure Response where
  status : Nat
  body : ResponseBody
deriving DecidableEq

/-- The method `handleCalculate(data, headers)`, headers left out. -/
def handleCalculate (now : String) (data : Data) : Response :=
  match validateInputData data with
  | Except.ok _ => { status := 200, body := ResponseBody.result (calculateQualificationPoints now data) }
  | Except.error message =>
    { status := 422, body := ResponseBody.failure "خطأ في الحساب" message now }

/-! ## The client's check of the required fields (`src/public/app.js`) -/

/-- The constant `APP_CONFIG.minTeachingYears` of `config.js`. -/
def minTeachingYears : Int := 3

/-- The method `validateRequiredFields()` of the client, on the values of the
form inputs `firstName`, `lastName` and `teachingYears`; the notification it
shows is left out. -/
def validateRequiredFields (firstNameValue lastNameValue teachingYearsValue : String) : Bool :=
  let firstName := jsTrim firstNameValue
  let lastName := jsTrim lastNameValue
  let teachingYears := parseIntOrZero (Val.str teachingYearsValue)
  if firstName = "" ∨ lastName = "" then false
  else if teachingYears < minTeachingYears then false
  else true

/-! ## Definitions used to state the properties -/

/-- A record given by the list of its populated keys. -/
def recordOf (fields : List (String × Val)) : Data :=
  fun key => (fields.lookup key).getD Val.undefined

/-- The value of `totalPoints` before `Math.round`: the un-rounded sum. -/
def unroundedTotal (data : Data) : ℚ :=
  (accumulatePoints data).1

/-- What one simple field adds to `totalPoints`: the value returned by
`calculateFieldPoints`. -/
def fieldContribution (value : Val) (config : PointRule) : ℚ :=
  (calculateFieldPoints value config "" []).1

/-- What one publication tier adds to `totalPoints`: the value returned by
`calculatePublicationPoints`. -/
def publicationContribution (first second third : Val) (rule : PointRule) : ℚ :=
  (calculatePublicationPoints first second third rule.points rule.max "" []).1

/-- The contributions of the 23 simple fields of a record. -/
def simpleContributions (data : Data) : List ℚ :=
  [fieldContribution (data "lessonsPerYear") pointsConfig.lessonsPerYear,
   fieldContribution (data "guidedWorks") pointsConfig.guidedWorks,
   fieldContribution (data "practicalWorks") pointsConfig.practicalWorks,
   fieldContribution (data "onlineLessons") pointsConfig.onlineLessons,
   fieldContribution (data "printedLessons") pointsConfig.printedLessons,
   fieldContribution (data "pedagogicalPublications") pointsConfig.pedagogicalPublications,
   fieldContribution (data "supervisionYears") pointsConfig.supervisionYears,
   fieldContribution (data "internshipFollowUp") pointsConfig.internshipFollowUp,
   fieldContribution (data "universityEnvironment") pointsConfig.universityEnvironment,
   fieldContribution (data "pedagogicalAnimation") pointsConfig.pedagogicalAnimation,
   fieldContribution (data "thesisSupervision") pointsConfig.thesisSupervision,
   fieldContribution (data "internationalPatents") pointsConfig.internationalPatents,
   fieldContribution (data "nationalPatents") pointsConfig.nationalPatents,
   fieldContribution (data "internationalConferences") pointsConfig.internationalConferences,
   fieldContribution (data "indexedProceedings") pointsConfig.indexedProceedings,
   fieldContribution (data "nationalConferences") pointsConfig.nationalConferences,
   fieldContribution (data "phdSupervision") pointsConfig.phdSupervision,
   fieldContribution (data "scientificPublications") pointsConfig.scientificPublications,
   fieldContribution (data "phdTraining") pointsConfig.phdTraining,
   fieldContribution (data "eventOrganization") pointsConfig.eventOrganization,
   fieldContribution (data "internationalProjects") pointsConfig.internationalProjects,
   fieldContribution (data "scientificActivities") pointsConfig.scientificActivities,
   fieldContribution (data "researchActivities") pointsConfig.researchActivities]

/-- The contributions of the 4 publication tiers of a record. -/
def publicationContributions (data : Data) : List ℚ :=
  [publicationContribution (data "categoryAPlusFirst") (data "categoryAPlusSecond")
     (data "categoryAPlusThird") pointsConfig.categoryAPlus,
   publicationContribution (data "categoryAFirst") (data "categoryASecond")
     (data "categoryAThird") pointsConfig.categoryA,
   publicationContribution (data "categoryBFirst") (data "categoryBSecond")
     (data "categoryBThird") pointsConfig.categoryB,
   publicationContribution (data "categoryCFirst") (data "categoryCSecond")
     (data "categoryCThird") pointsConfig.categoryC]

/-- The specification's `cap == null ? raw : min(raw, cap)`. -/
def capAt (raw : ℚ) : Option ℚ → ℚ
  | none => raw
  | some cap => min raw cap

/-- The specification's points of a simple field with count `n`. -/
def specFieldPoints (n : Int) (rule : PointRule) : ℚ :=
  capAt ((n : ℚ) * rule.points) rule.max

/-- The specification's points of a publication tier:
`first*p + second*p*0.5 + third*p*0.25`, capped. -/
def specTierPoints (first second third : Int) (p : ℚ) (cap : Option ℚ) : ℚ :=
  capAt ((first : ℚ) * p + (second : ℚ) * p * 0.5 + (third : ℚ) * p * 0.25) cap

/-- The specification's `aPlusCount`: the sum of the three coerced authorship
counts of tier A+. -/
def aPlusCount (data : Data) : Int :=
  parseIntOrZero (data "categoryAPlusFirst") + parseIntOrZero (data "categoryAPlusSecond") +
    parseIntOrZero (data "categoryAPlusThird")

/-- The specification's `aCount`, for tier A. -/
def aCount (data : Data) : Int :=
  parseIntOrZero (data "categoryAFirst") + parseIntOrZero (data "categoryASecond") +
    parseIntOrZero (data "categoryAThird")

/-- The specification's `bCount`, for tier B. -/
def bCount (data : Data) : Int :=
  parseIntOrZero (data "categoryBFirst") + parseIntOrZero (data "categoryBSecond") +
    parseIntOrZero (data "categoryBThird")

/-- The specification's `cCount`, for tier C. -/
def cCount (data : Data) : Int :=
  parseIntOrZero (data "categoryCFirst") + parseIntOrZero (data "categoryCSecond") +
    parseIntOrZero (data "categoryCThird")

/-- The specification's reason list: the descriptions of the failing conditions
among insufficient points, insufficient teaching years and missing mandatory
publication, in that order. -/
def failingDescriptions (pointsFail yearsFail publicationFail : Bool) : List String :=
  ([(pointsFail, insufficientPointsText), (yearsFail, insufficientYearsText),
    (publicationFail, missingPublicationText)].filter Prod.fst).map Prod.snd

/-- A populated value that `parseInt` cannot read: `data[field] &&
isNaN(parseInt(data[field]))`. -/
def populatedUnparseable (v : Val) : Prop :=
  truthy v = true ∧ parseInt v = none

/-! ## Sample records -/

/-- Three first-author A+ articles (300), one third-author A article (22.5)
and three supervised theses (27): an un-rounded total of 349.5. -/
def halfPointRecord : Data :=
  recordOf [("firstName", Val.str "Amar"), ("lastName", Val.str "Said"),
    ("specialization", Val.str "sciences"), ("teachingYears", Val.num 5),
    ("categoryAPlusFirst", Val.num 3), ("categoryAThird", Val.num 1),
    ("thesisSupervision", Val.num 3)]

/-- Four first-author A articles in the sciences, five teaching years. -/
def fourArticlesRecord : Data :=
  recordOf [("firstName", Val.str "Amar"), ("lastName", Val.str "Said"),
    ("specialization", Val.str "sciences"), ("teachingYears", Val.num 5),
    ("categoryAFirst", Val.num 4)]

/-- One yearly lesson and a negative count of first-author A+ articles. -/
def negativeCountRecord : Data :=
  recordOf [("firstName", Val.str "Amar"), ("lastName", Val.str "Said"),
    ("specialization", Val.str "sciences"), ("teachingYears", Val.num 5),
    ("lessonsPerYear", Val.num 1), ("categoryAPlusFirst", Val.num (-1))]

/-- A sciences record whose tier counts are 1 for A+ and -1 for A. -/
def mixedSignRecord : Data :=
  recordOf [("firstName", Val.str "Amar"), ("lastName", Val.str "Said"),
    ("specialization", Val.str "sciences"), ("teachingYears", Val.num 5),
    ("categoryAPlusFirst", Val.num 1), ("categoryAFirst", Val.num (-1))]

/-- A humanities record with one third-author C article. -/
def humanitiesRecord : Data :=
  recordOf [("firstName", Val.str "Amar"), ("lastName", Val.str "Said"),
    ("specialization", Val.str "humanities"), ("teachingYears", Val.num 5),
    ("categoryCThird", Val.str "1")]

/-- A record whose first name is three spaces. -/
def blankNameRecord : Data :=
  recordOf [("firstName", Val.str "   "), ("lastName", Val.str "Said"),
    ("specialization", Val.str "sciences"), ("teachingYears", Val.num 5)]

/-- A record with one teaching year. -/
def lowYearsRecord : Data :=
  recordOf [("firstName", Val.str "Amar"), ("lastName", Val.str "Said"),
    ("specialization", Val.str "sciences"), ("teachingYears", Val.num 1),
    ("categoryAFirst", Val.num 4)]

/-- A record whose `guidedWorks` is populated with text that is not a number
and whose `categoryAFirst` is not a number either. -/
def unparseableRecord : Data :=
  recordOf [("firstName", Val.str "Amar"), ("lastName", Val.str "Said"),
    ("specialization", Val.str "sciences"), ("teachingYears", Val.str "5"),
    ("guidedWorks", Val.str "abc"), ("categoryAFirst", Val.str "abc")]

/-- Two first-author A articles in the sciences, five teaching years. -/
def twoArticlesRecord : Data :=
  recordOf [("firstName", Val.str "Amar"), ("lastName", Val.str "Said"),
    ("specialization", Val.str "sciences"), ("teachingYears", Val.num 5),
    ("categoryAFirst", Val.num 2)]

/-- A humanities record without publication: ten international patents (400
points) and five teaching years. -/
def noPublicationRecord : Data :=
  recordOf [("firstName", Val.str "Amar"), ("lastName", Val.str "Said"),
    ("specialization", Val.str "humanities"), ("teachingYears", Val.num 5),
    ("internationalPatents", Val.num 10)]

/-- Ten yearly lessons and two first-author B articles. -/
def tenLessonsRecord : Data :=
  recordOf [("firstName", Val.str "Amar"), ("lastName", Val.str "Said"),
    ("specialization", Val.str "sciences"), ("teachingYears", Val.num 5),
    ("lessonsPerYear", Val.num 10), ("categoryBFirst", Val.num 2)]

/-- A record accepted by the strict validation, with `onlineLessons` left
empty. -/
def emptyFieldRecord : Data :=
  recordOf [("firstName", Val.str "Amar"), ("lastName", Val.str "Said"),
    ("specialization", Val.str "sciences"), ("teachingYears", Val.str "4"),
    ("onlineLessons", Val.str ""), ("categoryAFirst", Val.num 1)]

/-! ## The 27 scoring statements as a list -/

/-- One scoring statement of `calculateQualificationPoints`: a call of
`calculateFieldPoints` on the value of one key, or a call of
`calculatePublicationPoints` on the values of the three keys of a tier, with
the rule and the entry name passed to it. -/
inductive ScoringStep where
  | field (key : String) (config : PointRule) (name : String)
  | publication (firstKey secondKey thirdKey : String) (config : PointRule) (name : String)

/-- The rule of the point table a statement uses. -/
def ScoringStep.config : ScoringStep → PointRule
  | .field _ config _ => config
  | .publication _ _ _ config _ => config

/-- The entry name a statement passes. -/
def ScoringStep.entryName : ScoringStep → String
  | .field _ _ name => name
  | .publication _ _ _ _ name => name

/-- The keys of the record a statement reads. -/
def ScoringStep.keys : ScoringStep → List String
  | .field key _ _ => [key]
  | .publication firstKey secondKey thirdKey _ _ => [firstKey, secondKey, thirdKey]

/-- Whether the statement scores a simple field. -/
def ScoringStep.isField : ScoringStep → Bool
  | .field _ _ _ => true
  | .publication _ _ _ _ _ => false

/-- The 27 scoring statements of `calculateQualificationPoints`, in source
order. -/
def scoringSteps : List ScoringStep :=
  [.field "lessonsPerYear" pointsConfig.lessonsPerYear "الدروس السنوية",
   .field "guidedWorks" pointsConfig.guidedWorks "الأعمال الموجهة",
   .field "practicalWorks" pointsConfig.practicalWorks "الأعمال التطبيقية",
   .field "onlineLessons" pointsConfig.onlineLessons "دروس عبر الخط",
   .field "printedLessons" pointsConfig.printedLessons "مطبوعة دروس",
   .field "pedagogicalPublications" pointsConfig.pedagogicalPublications "نشر مؤلفات بيداغوجية",
   .field "supervisionYears" pointsConfig.supervisionYears "القيام بالوصاية",
   .field "internshipFollowUp" pointsConfig.internshipFollowUp "متابعة الطلبة المتربصين",
   .field "universityEnvironment" pointsConfig.universityEnvironment
     "المشاركة في العلاقة مع المحيط",
   .field "pedagogicalAnimation" pointsConfig.pedagogicalAnimation
     "المشاركة في التنشيط البيداغوجي",
   .field "thesisSupervision" pointsConfig.thesisSupervision "تأطير مذكرات",
   .publication "categoryAPlusFirst" "categoryAPlusSecond" "categoryAPlusThird"
     pointsConfig.categoryAPlus "مقالات الصنف \"أ+\" الدولية",
   .publication "categoryAFirst" "categoryASecond" "categoryAThird"
     pointsConfig.categoryA "مقالات الصنف \"أ\" الدولية",
   .publication "categoryBFirst" "categoryBSecond" "categoryBThird"
     pointsConfig.categoryB "مقالات الصنف \"ب\" الدولية",
   .publication "categoryCFirst" "categoryCSecond" "categoryCThird"
     pointsConfig.categoryC "مقالات الصنف \"ج\" الوطنية",
   .field "internationalPatents" pointsConfig.internationalPatents "براءات الاختراع الدولية",
   .field "nationalPatents" pointsConfig.nationalPatents "براءات الاختراع الوطنية",
   .field "internationalConferences" pointsConfig.internationalConferences "المداخلات الدولية",
   .field "indexedProceedings" pointsConfig.indexedProceedings "مداخلات في proceedings مفهرسة",
   .field "nationalConferences" pointsConfig.nationalConferences "المداخلات الوطنية",
   .field "phdSupervision" pointsConfig.phdSupervision "الإشراف على أطروحات الدكتوراه",
   .field "scientificPublications" pointsConfig.scientificPublications "نشر مؤلفات علمية",
   .field "phdTraining" pointsConfig.phdTraining "المشاركة في التكوين في الدكتوراه",
   .field "eventOrganization" pointsConfig.eventOrganization "المشاركة في تنظيم نشاط علمي",
   .field "internationalProjects" pointsConfig.internationalProjects "مشاريع تعاون دولية",
   .field "scientificActivities" pointsConfig.scientificActivities
     "المشاركة في النشاطات العلمية",
   .field "researchActivities" pointsConfig.researchActivities "المشاركة في نشاطات البحث"]

/-- The effect of one scoring statement on the pair of `totalPoints` and
`breakdown`. -/
def runStep (data : Data) (st : ℚ × List Entry) : ScoringStep → ℚ × List Entry
  | .field key config name => addField st (data key) config name
  | .publication firstKey secondKey thirdKey config name =>
    addPublication st (data firstKey) (data secondKey) (data thirdKey) config name

/-- What one scoring statement adds to `totalPoints`. -/
def stepContribution (data : Data) : ScoringStep → ℚ
  | .field key config _ => fieldContribution (data key) config
  | .publication firstKey secondKey thirdKey config _ =>
    publicationContribution (data firstKey) (data secondKey) (data thirdKey) config

/-- What one scoring statement appends to `breakdown`. -/
def stepEntries (data : Data) (step : ScoringStep) : List Entry :=
  (runStep data (0, []) step).2

/-- The 35 keys holding a count: those of the 23 simple fields and the twelve
publication counts. -/
def countKeys : List String :=
  scoringSteps.flatMap ScoringStep.keys

/-- The keys of the 23 simple activity fields. -/
def simpleFieldKeys : List String :=
  (scoringSteps.filter ScoringStep.isField).flatMap ScoringStep.keys

/-- The keys of the twelve publication counts. -/
def publicationKeys : List String :=
  (scoringSteps.filter (fun step => !step.isField)).flatMap ScoringStep.keys

/-- The record `data` with the value under `key` replaced. -/
def setField (data : Data) (key : String) (value : Val) : Data :=
  fun k => if k = key then value else data k

/-- Whether the text `part` occurs in the text `whole`. -/
def occursIn (part whole : String) : Prop :=
  part.data <:+: whole.data

instance (part whole : String) : Decidable (occursIn part whole) :=
  inferInstanceAs (Decidable (part.data <:+: whole.data))

/-! ## The point table of the client (`src/public/config.js`) -/

/-- The keys and rules of the object literal `pointsConfig` of the worker, in
source order. -/
def pointsConfigEntries : List (String × PointRule) :=
  [("lessonsPerYear", pointsConfig.lessonsPerYear),
   ("guidedWorks", pointsConfig.guidedWorks),
   ("practicalWorks", pointsConfig.practicalWorks),
   ("onlineLessons", pointsConfig.onlineLessons),
   ("printedLessons", pointsConfig.printedLessons),
   ("pedagogicalPublications", pointsConfig.pedagogicalPublications),
   ("supervisionYears", pointsConfig.supervisionYears),
   ("internshipFollowUp", pointsConfig.internshipFollowUp),
   ("universityEnvironment", pointsConfig.universityEnvironment),
   ("pedagogicalAnimation", pointsConfig.pedagogicalAnimation),
   ("thesisSupervision", pointsConfig.thesisSupervision),
   ("categoryAPlus", pointsConfig.categoryAPlus),
   ("categoryA", pointsConfig.categoryA),
   ("categoryB", pointsConfig.categoryB),
   ("categoryC", pointsConfig.categoryC),
   ("internationalPatents", pointsConfig.internationalPatents),
   ("nationalPatents", pointsConfig.nationalPatents),
   ("internationalConferences", pointsConfig.internationalConferences),
   ("indexedProceedings", pointsConfig.indexedProceedings),
   ("nationalConferences", pointsConfig.nationalConferences),
   ("phdSupervision", pointsConfig.phdSupervision),
   ("scientificPublications", pointsConfig.scientificPublications),
   ("phdTraining", pointsConfig.phdTraining),
   ("eventOrganization", pointsConfig.eventOrganization),
   ("internationalProjects", pointsConfig.internationalProjects),
   ("scientificActivities", pointsConfig.scientificActivities),
   ("researchActivities", pointsConfig.researchActivities)]

/-- The keys and rules of the object literal `APP_CONFIG.points` of
`config.js`, in source order. -/
def appConfigPoints : List (String × PointRule) :=
  [("lessonsPerYear", ⟨15, some 45⟩),
   ("guidedWorks", ⟨8, some 24⟩),
   ("practicalWorks", ⟨5, some 15⟩),
   ("onlineLessons", ⟨15, none⟩),
   ("printedLessons", ⟨12, some 24⟩),
   ("pedagogicalPublications", ⟨30, none⟩),
   ("supervisionYears", ⟨3, some 9⟩),
   ("internshipFollowUp", ⟨6, some 18⟩),
   ("universityEnvironment", ⟨5, none⟩),
   ("pedagogicalAnimation", ⟨5, none⟩),
   ("thesisSupervision", ⟨9, some 27⟩),
   ("categoryAPlus", ⟨100, none⟩),
   ("categoryA", ⟨90, none⟩),
   ("categoryB", ⟨60, none⟩),
   ("categoryC", ⟨40, some 80⟩),
   ("internationalPatents", ⟨40, none⟩),
   ("nationalPatents", ⟨20, none⟩),
   ("internationalConferences", ⟨20, some 40⟩),
   ("indexedProceedings", ⟨5, none⟩),
   ("nationalConferences", ⟨10, some 20⟩),
   ("phdSupervision", ⟨20, none⟩),
   ("scientificPublications", ⟨20, none⟩),
   ("phdTraining", ⟨15, none⟩),
   ("eventOrganization", ⟨5, some 10⟩),
   ("internationalProjects", ⟨5, some 10⟩),
   ("scientificActivities", ⟨5, some 15⟩),
   ("researchActivities", ⟨5, some 10⟩)]

/-! ## The client's local fallback and tier preview (`src/public/app.js`) -/

/-- The object returned by `performLocalCalculation`. -/
structure LocalResult where
  totalPoints : Int
  eligible : Bool
  breakdown : List Entry
  message : String
deriving DecidableEq

/-- The method `performLocalCalculation(data)` of the client. -/
def performLocalCalculation (_data : Data) : LocalResult :=
  { totalPoints := 0
    eligible := false
    breakdown := []
    message := "الحساب المحلي غير متوفر، يرجى الاتصال بالإنترنت" }

/-- What `updatePublicationSummaries` writes for one tier: the text of the
elements `category<Tier>Total` and `category<Tier>Points`. -/
structure TierSummary where
  total : Int
  points : Int
deriving DecidableEq

/-- The array `categories` of `updatePublicationSummaries`. -/
def categories : List String := ["APlus", "A", "B", "C"]

/-- The body of the `forEach` of `updatePublicationSummaries` for one
category: `form id` is the value of the input element `id`; `none` stands for
the `TypeError` of reading `.points` of a missing rule. -/
def tierSummary (form : String → String) (category : String) : Option TierSummary :=
  let first := parseIntOrZero (Val.str (form ("category" ++ category ++ "First")))
  let second := parseIntOrZero (Val.str (form ("category" ++ category ++ "Second")))
  let third := parseIntOrZero (Val.str (form ("category" ++ category ++ "Third")))
  let total := first + second + third
  match appConfigPoints.lookup ("category" ++ category) with
  | none => none
  | some rule =>
    let basePoints := rule.points
    let maxPoints := rule.max
    let points : ℚ :=
      ((first : ℚ) * basePoints) + ((second : ℚ) * basePoints * (1 / 2)) +
        ((third : ℚ) * basePoints * (1 / 4))
    let points : ℚ :=
      match maxPoints with
      | some m => if m ≠ 0 then min points m else points
      | none => points
    some { total := total, points := mathRound points }

/-- The method `updatePublicationSummaries()` of the client: the summaries
written for the four categories, in order. -/
def updatePublicationSummaries (form : String → String) : List (Option TierSummary) :=
  categories.map (tierSummary form)

/-- The form whose populated inputs are given by a list. -/
def formOf (fields : List (String × String)) : String → String :=
  fun id => (fields.lookup id).getD ""

/-- A form with one first-author and three third-author articles of tier A. -/
def tierAForm : String → String :=
  formOf [("categoryAFirst", "1"), ("categoryAThird", "3")]

/-- Every capped simple field far above its cap and twenty first-author C
articles, nothing else. -/
def cappedOnlyRecord : Data :=
  recordOf [("firstName", Val.str "Amar"), ("lastName", Val.str "Said"),
    ("specialization", Val.str "humanities"), ("teachingYears", Val.num 5),
    ("lessonsPerYear", Val.num 50), ("guidedWorks", Val.num 50),
    ("practicalWorks", Val.num 50), ("printedLessons", Val.num 50),
    ("supervisionYears", Val.num 50), ("internshipFollowUp", Val.num 50),
    ("thesisSupervision", Val.num 50), ("categoryCFirst", Val.num 20),
    ("internationalConferences", Val.num 50), ("nationalConferences", Val.num 50),
    ("eventOrganization", Val.num 50), ("internationalProjects", Val.num 50),
    ("scientificActivities", Val.num 50), ("researchActivities", Val.num 50)]

/-! ## The worker in double precision -/

namespace Doubles

/-- A JavaScript Number: a finite double, held as the rational it denotes, an
infinity or `NaN`.  The two zeros are not told apart; the worker never reads
the sign of a zero. -/
inductive Number where
  | finite (q : ℚ)
  | posInf
  | negInf
  | nan
deriving DecidableEq

/-- The power `2^e` as a rational. -/
def pow2 (e : Int) : ℚ :=
  if 0 ≤ e then ((2 ^ e.toNat : Nat) : ℚ) else 1 / ((2 ^ (-e).toNat : Nat) : ℚ)

/-- The number of binary digits of `n`, computed with `fuel` steps at most;
`fuel = n` is enough. -/
def bitLength : Nat → Nat → Nat
  | 0, _ => 0
  | fuel + 1, n => if n = 0 then 0 else bitLength fuel (n / 2) + 1

/-- The binary exponent of a positive rational `q`: the `e` with
`2^e ≤ q < 2^(e+1)`, which is the difference of the bit lengths of numerator
and denominator or one less. -/
def binaryExponent (q : ℚ) : Int :=
  let e : Int := (bitLength q.num.natAbs q.num.natAbs : Int) - (bitLength q.den q.den : Int)
  if pow2 e ≤ q then e else e - 1

/-- Rounding to the nearest integer, a half going to the even neighbour. -/
def roundHalfEven (q : ℚ) : Int :=
  let f := ⌊q⌋
  let r := q - (f : ℚ)
  if r < 1 / 2 then f
  else if 1 / 2 < r then f + 1
  else if f % 2 = 0 then f
  else f + 1

/-- The double nearest to a positive rational, in the rounding of IEEE 754
arithmetic (to nearest, ties to even, 53 significant bits, least exponent
-1022); `none` when the result is beyond the largest double. -/
def roundPositive (q : ℚ) : Option ℚ :=
  let e := max (binaryExponent q) (-1022)
  let ulp := pow2 (e - 52)
  let r := (roundHalfEven (q / ulp) : ℚ) * ulp
  if pow2 1024 ≤ r then none else some r

/-- The Number value of a rational: the result an arithmetic operation
returns for the exact result `q`. -/
def ofRat (q : ℚ) : Number :=
  if q = 0 then Number.finite 0
  else if 0 < q then
    match roundPositive q with
    | some r => Number.finite r
    | none => Number.posInf
  else
    match roundPositive (-q) with
    | some r => Number.finite (-r)
    | none => Number.negInf

/-- The operator `x + y` on Numbers. -/
def add : Number → Number → Number
  | .nan, _ => .nan
  | _, .nan => .nan
  | .finite a, .finite b => ofRat (a + b)
  | .finite _, .posInf => .posInf
  | .finite _, .negInf => .negInf
  | .posInf, .finite _ => .posInf
  | .negInf, .finite _ => .negInf
  | .posInf, .posInf => .posInf
  | .negInf, .negInf => .negInf
  | .posInf, .negInf => .nan
  | .negInf, .posInf => .nan

/-- The product of an infinity, positive or negative, with a finite value:
`NaN` for zero, else the infinity of the product of the signs. -/
def mulInfinite (positive : Bool) (a : ℚ) : Number :=
  if a = 0 then .nan
  else if 0 < a then (if positive then .posInf else .negInf)
  else (if positive then .negInf else .posInf)

/-- The operator `x * y` on Numbers. -/
def mul : Number → Number → Number
  | .nan, _ => .nan
  | _, .nan => .nan
  | .finite a, .finite b => ofRat (a * b)
  | .finite a, .posInf => mulInfinite true a
  | .finite a, .negInf => mulInfinite false a
  | .posInf, .finite b => mulInfinite true b
  | .negInf, .finite b => mulInfinite false b
  | .posInf, .posInf => .posInf
  | .negInf, .negInf => .posInf
  | .posInf, .negInf => .negInf
  | .negInf, .posInf => .negInf

/-- The operator `-x`. -/
def neg : Number → Number
  | .finite a => .finite (-a)
  | .posInf => .negInf
  | .negInf => .posInf
  | .nan => .nan

/-- The operator `x - y`. -/
def sub (x y : Number) : Number :=
  add x (neg y)

/-- The comparison `x < y`: false as soon as one side is `NaN`. -/
def lt : Number → Number → Bool
  | .nan, _ => false
  | _, .nan => false
  | .finite a, .finite b => decide (a < b)
  | .finite _, .posInf => true
  | .finite _, .negInf => false
  | .posInf, _ => false
  | .negInf, .negInf => false
  | .negInf, _ => true

/-- The comparison `x <= y`: false as soon as one side is `NaN`. -/
def le : Number → Number → Bool
  | .nan, _ => false
  | _, .nan => false
  | .finite a, .finite b => decide (a ≤ b)
  | .finite _, .posInf => true
  | .finite _, .negInf => false
  | .posInf, .posInf => true
  | .posInf, _ => false
  | .negInf, _ => true

/-- The comparison `x > y`. -/
def gt (x y : Number) : Bool :=
  lt y x

/-- The comparison `x >= y`. -/
def ge (x y : Number) : Bool :=
  le y x

/-- The expression `x || 0` on a Number: `NaN` and zero give 0. -/
def orZero : Number → Number
  | .nan => .finite 0
  | .finite a => .finite a
  | .posInf => .posInf
  | .negInf => .negInf

/-- The built-in `Math.round`: the nearest integer, a half rounding towards
positive infinity; it is exact on every double. -/
def mathRound : Number → Number
  | .finite a => .finite ((⌊a + 1 / 2⌋ : Int) : ℚ)
  | .posInf => .posInf
  | .negInf => .negInf
  | .nan => .nan

/-- The built-in `isNaN` on a Number. -/
def isNaN : Number → Bool
  | .nan => true
  | _ => false

/-- The built-in `parseInt(value)`: the integer read from the text of the value,
as a Number; `NaN` when there is none. -/
def parseInt (v : Val) : Number :=
  match parseIntString (toStringJS v) with
  | none => .nan
  | some n => ofRat (n : ℚ)

/-- The `details` object of a publication entry. -/
structure Details where
  firstAuthor : Number
  secondAuthor : Number
  thirdAuthorPlus : Number
deriving DecidableEq

/-- One entry of the breakdown. -/
structure Entry where
  name : String
  points : Number
  count : Number
  details : Option Details
deriving DecidableEq

/-- The object returned by `calculateQualificationPoints`. -/
structure ScoreResult where
  totalPoints : Number
  eligible : Bool
  eligibilityReason : String
  breakdown : List Entry
  teachingYears : Number
  hasRequiredPublication : Bool
  calculatedAt : String
deriving DecidableEq

/-- The test `config.max !== null && points > config.max` and the assignment
it guards. -/
def applyMax (points : Number) : Option ℚ → Number
  | some m => if gt points (.finite m) then .finite m else points
  | none => points

/-- The method `calculateFieldPoints(value, config, name, breakdown)` in
double precision. -/
def calculateFieldPoints (value : Val) (config : PointRule) (name : String)
    (breakdown : List Entry) : Number × List Entry :=
  let count := orZero (parseInt value)
  if le count (.finite 0) then (.finite 0, breakdown)
  else
    let points := mul count (.finite config.points)
    let points := applyMax points config.max
    if gt points (.finite 0) then
      (points, breakdown ++ [{ name := name, points := mathRound points, count := count,
                               details := none }])
    else (points, breakdown)

/-- The method `calculatePublicationPoints(first, second, third, basePoints,
maxPoints, name, breakdown)` in double precision. -/
def calculatePublicationPoints (first second third : Val) (basePoints : ℚ)
    (maxPoints : Option ℚ) (name : String) (breakdown : List Entry) : Number × List Entry :=
  let firstCount := orZero (parseInt first)
  let secondCount := orZero (parseInt second)
  let thirdCount := orZero (parseInt third)
  let points :=
    add (add (mul firstCount (.finite basePoints))
        (mul (mul secondCount (.finite basePoints)) (.finite (1 / 2))))
      (mul (mul thirdCount (.finite basePoints)) (.finite (1 / 4)))
  let points := applyMax points maxPoints
  let totalCount := add (add firstCount secondCount) thirdCount
  if gt points (.finite 0) then
    (points, breakdown ++ [{ name := name, points := mathRound points, count := totalCount,
                             details := some { firstAuthor := firstCount,
                                               secondAuthor := secondCount,
                                               thirdAuthorPlus := thirdCount } }])
  else (points, breakdown)

/-- The sum of the three coerced counts of a tier, as `checkRequiredPublication`
computes it. -/
def tierTotal (data : Data) (firstKey secondKey thirdKey : String) : Number :=
  add (add (orZero (parseInt (data firstKey))) (orZero (parseInt (data secondKey))))
    (orZero (parseInt (data thirdKey)))

/-- The method `checkRequiredPublication(data)` in double precision. -/
def checkRequiredPublication (data : Data) : Bool :=
  let specialization := data "specialization"
  let aPlusTotal := tierTotal data "categoryAPlusFirst" "categoryAPlusSecond" "categoryAPlusThird"
  let aTotal := tierTotal data "categoryAFirst" "categoryASecond" "categoryAThird"
  let bTotal := tierTotal data "categoryBFirst" "categoryBSecond" "categoryBThird"
  let cTotal := tierTotal data "categoryCFirst" "categoryCSecond" "categoryCThird"
  if specialization = Val.str "sciences" then
    gt aPlusTotal (.finite 0) || gt aTotal (.finite 0) || gt bTotal (.finite 0)
  else if specialization = Val.str "humanities" then
    gt aPlusTotal (.finite 0) || gt aTotal (.finite 0) || gt bTotal (.finite 0) ||
      gt cTotal (.finite 0)
  else false

/-- One scoring statement `totalPoints += ...` on the pair of `totalPoints` and
`breakdown`. -/
def runStep (data : Data) (st : Number × List Entry) : ScoringStep → Number × List Entry
  | .field key config name =>
    let r := calculateFieldPoints (data key) config name st.2
    (add st.1 r.1, r.2)
  | .publication firstKey secondKey thirdKey config name =>
    let r := calculatePublicationPoints (data firstKey) (data secondKey) (data thirdKey)
      config.points config.max name st.2
    (add st.1 r.1, r.2)

/-- The first part of `calculateQualificationPoints`: `totalPoints` and
`breakdown` after the 27 scoring statements, run in source order from
`totalPoints = 0` and `breakdown = []`. -/
def accumulatePoints (data : Data) : Number × List Entry :=
  scoringSteps.foldl (runStep data) (.finite 0, [])

/-- The array `reasons` built in the `else` branch of the eligibility test. -/
def collectReasons (totalPoints teachingYears : Number) (hasRequiredPublication : Bool) :
    List String :=
  let reasons : List String := []
  let reasons :=
    if lt totalPoints (.finite minPoints) then reasons ++ [insufficientPointsText] else reasons
  let reasons :=
    if lt teachingYears (.finite 3) then reasons ++ [insufficientYearsText] else reasons
  let reasons :=
    if !hasRequiredPublication then reasons ++ [missingPublicationText] else reasons
  reasons

/-- The comparator `(a, b) => b.points - a.points` read as an order: `a` stays
before `b` unless the comparator is positive (a `NaN` counts as 0). -/
def mayPrecede (a b : Entry) : Prop :=
  gt (sub b.points a.points) (.finite 0) = false

instance : DecidableRel mayPrecede :=
  fun a b => inferInstanceAs (Decidable (gt (sub b.points a.points) (.finite 0) = false))

/-- The call `breakdown.sort((a, b) => b.points - a.points)`: a stable sort. -/
def sortBreakdown (breakdown : List Entry) : List Entry :=
  List.insertionSort mayPrecede breakdown

/-- The method `calculateQualificationPoints(data)` in double precision. -/
def calculateQualificationPoints (now : String) (data : Data) : ScoreResult :=
  let st := accumulatePoints data
  let totalPoints := st.1
  let breakdown := st.2
  let teachingYears := orZero (parseInt (data "teachingYears"))
  let hasRequiredPublication := checkRequiredPublication data
  let verdict : Bool × String :=
    if ge totalPoints (.finite minPoints) && ge teachingYears (.finite 3) &&
        hasRequiredPublication then
      (true, eligibleMessage)
    else
      (false, ineligiblePrefix ++
        reasonSeparator.intercalate (collectReasons totalPoints teachingYears hasRequiredPublication))
  let breakdown := sortBreakdown breakdown
  { totalPoints := mathRound totalPoints
    eligible := verdict.1
    eligibilityReason := verdict.2
    breakdown := breakdown.filter (fun item => gt item.points (.finite 0))
    teachingYears := teachingYears
    hasRequiredPublication := hasRequiredPublication
    calculatedAt := now }

/-- The sum of the points of a list of entries, when all are finite. -/
def pointsSum : List Entry → Option ℚ
  | [] => some 0
  | e :: rest =>
    match e.points, pointsSum rest with
    | .finite q, some s => some (q + s)
    | _, _ => none

end Doubles

/-- The text of 400 digits 9. -/
def manyNines : String :=
  String.mk (List.replicate 400 '9')

/-- A sciences record whose counts of first-author A+ articles is 45035996273705
and of third-author A articles 1. -/
def roundingRecord : Data :=
  recordOf [("firstName", Val.str "Amar"), ("lastName", Val.str "Said"),
    ("specialization", Val.str "sciences"), ("teachingYears", Val.num 5),
    ("categoryAPlusFirst", Val.num 45035996273705), ("categoryAThird", Val.num 1)]

/-- A sciences record with a count of first-author A+ articles of 400 digits, the
opposite count of second-author A+ articles, and one first-author B article. -/
def overflowRecord : Data :=
  recordOf [("firstName", Val.str "Amar"), ("lastName", Val.str "Said"),
    ("specialization", Val.str "sciences"), ("teachingYears", Val.num 5),
    ("categoryAPlusFirst", Val.str manyNines),
    ("categoryAPlusSecond", Val.str ("-" ++ manyNines)),
    ("categoryBFirst", Val.num 1)]

/-! ## Lemmas on the scoring functions -/

theorem capAt_eq_ite (raw : ℚ) (cap : Option ℚ) :
    (match cap with
      | some m => if raw > m then m else raw
      | none => raw) = capAt raw cap := by
  cases cap with
  | none => rfl
  | some m =>
    simp only [capAt]
    by_cases h : raw > m
    · rw [if_pos h, min_eq_right (le_of_lt h)]
    · rw [if_neg h, min_eq_left (not_lt.mp h)]

theorem calculateFieldPoints_eq (value : Val) (config : PointRule) (name : String)
    (breakdown : List Entry) :
    calculateFieldPoints value config name breakdown =
      if parseIntOrZero value ≤ 0 then (0, breakdown)
      else if 0 < specFieldPoints (parseIntOrZero value) config then
        (specFieldPoints (parseIntOrZero value) config,
          breakdown ++ [{ name := name,
                          points := mathRound (specFieldPoints (parseIntOrZero value) config),
                          count := parseIntOrZero value, details := none }])
      else (specFieldPoints (parseIntOrZero value) config, breakdown) := by
  unfold calculateFieldPoints specFieldPoints
  simp only [capAt_eq_ite, gt_iff_lt]

theorem calculatePublicationPoints_eq (first second third : Val) (basePoints : ℚ)
    (maxPoints : Option ℚ) (name : String) (breakdown : List Entry) :
    calculatePublicationPoints first second third basePoints maxPoints name breakdown =
      if 0 < specTierPoints (parseIntOrZero first) (parseIntOrZero second)
          (parseIntOrZero third) basePoints maxPoints then
        (specTierPoints (parseIntOrZero first) (parseIntOrZero second)
            (parseIntOrZero third) basePoints maxPoints,
          breakdown ++ [{ name := name,
                          points := mathRound (specTierPoints (parseIntOrZero first)
                            (parseIntOrZero second) (parseIntOrZero third) basePoints maxPoints),
                          count := parseIntOrZero first + parseIntOrZero second +
                            parseIntOrZero third,
                          details := some { firstAuthor := parseIntOrZero first,
                                            secondAuthor := parseIntOrZero second,
                                            thirdAuthorPlus := parseIntOrZero third } }])
      else (specTierPoints (parseIntOrZero first) (parseIntOrZero second)
              (parseIntOrZero third) basePoints maxPoints, breakdown) := by
  have h5 : (0.5 : ℚ) = 1 / 2 := by norm_num
  have h25 : (0.25 : ℚ) = 1 / 4 := by norm_num
  unfold calculatePublicationPoints specTierPoints
  simp only [capAt_eq_ite, gt_iff_lt, h5, h25]

theorem calculateFieldPoints_fst (value : Val) (config : PointRule) (name : String)
    (breakdown : List Entry) :
    (calculateFieldPoints value config name breakdown).1 = fieldContribution value config := by
  unfold fieldContribution
  rw [calculateFieldPoints_eq, calculateFieldPoints_eq]
  split_ifs <;> rfl

theorem calculatePublicationPoints_fst (first second third : Val) (rule : PointRule)
    (name : String) (breakdown : List Entry) :
    (calculatePublicationPoints first second third rule.points rule.max name breakdown).1 =
      publicationContribution first second third rule := by
  unfold publicationContribution
  rw [calculatePublicationPoints_eq, calculatePublicationPoints_eq]
  split_ifs <;> rfl

theorem addField_fst (st : ℚ × List Entry) (value : Val) (config : PointRule) (name : String) :
    (addField st value config name).1 = st.1 + fieldContribution value config := by
  simp only [addField, calculateFieldPoints_fst]

theorem addPublication_fst (st : ℚ × List Entry) (first second third : Val)
    (rule : PointRule) (name : String) :
    (addPublication st first second third rule name).1 =
      st.1 + publicationContribution first second third rule := by
  simp only [addPublication, calculatePublicationPoints_fst]

theorem unroundedTotal_eq_sum (data : Data) :
    unroundedTotal data =
      (simpleContributions data).sum + (publicationContributions data).sum := by
  simp only [unroundedTotal, accumulatePoints, addField_fst, addPublication_fst,
    simpleContributions, publicationContributions, List.sum_cons, List.sum_nil]
  ring

theorem le_mathRound_of_le (k : Int) (x : ℚ) (h : (k : ℚ) ≤ x) : k ≤ mathRound x := by
  unfold mathRound
  rw [Int.le_floor]
  linarith

/-! ## Eligibility and the total -/

/-- C1, counterexample: on the record with an un-rounded total of 349.5 the
returned total is 350, the teaching years are 5 and the mandatory publication
is present, yet `eligible` is false. -/
theorem eligible_iff_rounded_total_fails :
    ¬ ((calculateQualificationPoints "" halfPointRecord).eligible = true ↔
        (350 ≤ (calculateQualificationPoints "" halfPointRecord).totalPoints ∧
          3 ≤ (calculateQualificationPoints "" halfPointRecord).teachingYears ∧
          (calculateQualificationPoints "" halfPointRecord).hasRequiredPublication = true)) := by
  decide!

/-- C1, amended: `eligible` is true if and only if the un-rounded point sum is
at least 350, the returned teaching years are at least 3 and the returned
`hasRequiredPublication` is true; an eligible result has a returned (rounded)
total of at least 350. -/
theorem eligible_iff_unrounded_total (now : String) (data : Data) :
    ((calculateQualificationPoints now data).eligible = true ↔
      (350 ≤ unroundedTotal data ∧
        3 ≤ (calculateQualificationPoints now data).teachingYears ∧
        (calculateQualificationPoints now data).hasRequiredPublication = true)) ∧
    ((calculateQualificationPoints now data).eligible = true →
      350 ≤ (calculateQualificationPoints now data).totalPoints) := by
  have key : (calculateQualificationPoints now data).eligible = true ↔
      (350 ≤ unroundedTotal data ∧ 3 ≤ parseIntOrZero (data "teachingYears") ∧
        checkRequiredPublication data = true) := by
    simp only [calculateQualificationPoints, unroundedTotal, minPoints, ge_iff_le]
    split_ifs with h
    · simpa using h
    · simpa using h
  refine ⟨key, fun h => ?_⟩
  have h350 := (key.mp h).1
  have hr : (calculateQualificationPoints now data).totalPoints =
      mathRound (unroundedTotal data) := rfl
  rw [hr]
  exact le_mathRound_of_le 350 _ (by exact_mod_cast h350)

/-- C1, amended, at a concrete record: four first-author A articles make the
record eligible with a returned total of at least 350. -/
theorem eligible_iff_unrounded_total_witness :
    (calculateQualificationPoints "" fourArticlesRecord).eligible = true ∧
      350 ≤ (calculateQualificationPoints "" fourArticlesRecord).totalPoints :=
  ⟨by decide!, (eligible_iff_unrounded_total "" fourArticlesRecord).2 (by decide!)⟩

/-- C2: the returned `totalPoints` is `Math.round` of the un-rounded sum of the
23 simple-field contributions and the 4 publication-tier contributions; it is
not computed as the sum of the rounded breakdown entries, from which it
differs on some record. -/
theorem totalPoints_rounds_unrounded_sum :
    (∀ (now : String) (data : Data),
      (simpleContributions data).length = 23 ∧ (publicationContributions data).length = 4 ∧
      (calculateQualificationPoints now data).totalPoints =
        mathRound ((simpleContributions data).sum + (publicationContributions data).sum)) ∧
    (∃ data : Data,
      (calculateQualificationPoints "" data).totalPoints ≠
        (((calculateQualificationPoints "" data).breakdown).map Entry.points).sum) := by
  refine ⟨fun now data => ⟨rfl, rfl, ?_⟩, negativeCountRecord, by decide!⟩
  rw [← unroundedTotal_eq_sum]
  rfl

/-! ## The two point calculations -/

theorem simpleFieldRules_positive (config : PointRule) (hc : config ∈ simpleFieldRules) :
    0 < config.points ∧ ∀ cap, config.max = some cap → 0 < cap := by
  simp only [simpleFieldRules, pointsConfig, List.mem_cons, List.mem_singleton, List.mem_nil_iff,
    or_false] at hc
  rcases hc with h | h | h | h | h | h | h | h | h | h | h | h | h | h | h | h | h | h | h | h |
    h | h | h <;> subst h <;> refine ⟨by norm_num, fun cap hcap => ?_⟩ <;>
    simp only [Option.some.injEq, reduceCtorEq] at hcap <;> subst hcap <;> norm_num

theorem specFieldPoints_pos (config : PointRule) (hp : 0 < config.points)
    (hcap : ∀ cap, config.max = some cap → 0 < cap) (n : Int) (hn : 0 < n) :
    0 < specFieldPoints n config := by
  have hraw : (0 : ℚ) < (n : ℚ) * config.points := mul_pos (by exact_mod_cast hn) hp
  unfold specFieldPoints
  cases hmax : config.max with
  | none => simpa [capAt] using hraw
  | some cap => simpa [capAt] using ⟨hraw, hcap cap hmax⟩

/-- C3: for a rule of one of the 23 simple fields of the table and any raw
value, with `n` the coerced count: when `n <= 0` the call returns 0 and leaves
the breakdown as it is; when `n > 0` it returns `n*p` (no cap) or `min(n*p, c)`
(cap `c`) and appends exactly one entry, of count `n` and of points that value
rounded. -/
theorem calculateFieldPoints_table_rule (config : PointRule) (hc : config ∈ simpleFieldRules)
    (value : Val) (name : String) (breakdown : List Entry) :
    (parseIntOrZero value ≤ 0 →
      calculateFieldPoints value config name breakdown = (0, breakdown)) ∧
    (0 < parseIntOrZero value →
      calculateFieldPoints value config name breakdown =
        (specFieldPoints (parseIntOrZero value) config,
          breakdown ++ [{ name := name,
                          points := mathRound (specFieldPoints (parseIntOrZero value) config),
                          count := parseIntOrZero value, details := none }])) ∧
    (config.max = none →
      specFieldPoints (parseIntOrZero value) config = (parseIntOrZero value : ℚ) * config.points) ∧
    (∀ cap, config.max = some cap →
      specFieldPoints (parseIntOrZero value) config =
        min ((parseIntOrZero value : ℚ) * config.points) cap) := by
  obtain ⟨hp, hcap⟩ := simpleFieldRules_positive config hc
  refine ⟨fun hn => ?_, fun hn => ?_, fun hmax => ?_, fun cap hmax => ?_⟩
  · rw [calculateFieldPoints_eq, if_pos hn]
  · rw [calculateFieldPoints_eq, if_neg (not_le.mpr hn),
      if_pos (specFieldPoints_pos config hp hcap _ hn)]
  · simp only [specFieldPoints, hmax, capAt]
  · simp only [specFieldPoints, hmax, capAt]

/-- C3 at a concrete input: ten yearly lessons under the rule of 15 points
capped at 45 return 45 and append one entry of 45 points and count 10. -/
theorem calculateFieldPoints_table_rule_witness :
    pointsConfig.lessonsPerYear ∈ simpleFieldRules ∧
    0 < parseIntOrZero (Val.num 10) ∧
    calculateFieldPoints (Val.num 10) pointsConfig.lessonsPerYear "الدروس السنوية" [] =
      (specFieldPoints (parseIntOrZero (Val.num 10)) pointsConfig.lessonsPerYear,
        [] ++ [{ name := "الدروس السنوية",
                 points := mathRound (specFieldPoints (parseIntOrZero (Val.num 10))
                   pointsConfig.lessonsPerYear),
                 count := parseIntOrZero (Val.num 10), details := none }]) :=
  ⟨List.mem_cons_self _ _, by decide,
    (calculateFieldPoints_table_rule pointsConfig.lessonsPerYear (List.mem_cons_self _ _)
      (Val.num 10) "الدروس السنوية" []).2.1 (by decide)⟩

/-- C4: for every base points `p`, cap `c` and triple of raw counts, the call
returns `first*p + second*p*0.5 + third*p*0.25`, capped by `min` when `c` is
not null; it appends an entry if and only if that value is positive, and the
entry has count `first+second+third`, the three counts as details and the
value rounded as points. -/
theorem calculatePublicationPoints_spec (first second third : Val) (basePoints : ℚ)
    (maxPoints : Option ℚ) (name : String) (breakdown : List Entry) :
    (calculatePublicationPoints first second third basePoints maxPoints name breakdown).1 =
      specTierPoints (parseIntOrZero first) (parseIntOrZero second) (parseIntOrZero third)
        basePoints maxPoints ∧
    specTierPoints (parseIntOrZero first) (parseIntOrZero second) (parseIntOrZero third)
        basePoints none =
      (parseIntOrZero first : ℚ) * basePoints + (parseIntOrZero second : ℚ) * basePoints * 0.5 +
        (parseIntOrZero third : ℚ) * basePoints * 0.25 ∧
    (∀ cap, specTierPoints (parseIntOrZero first) (parseIntOrZero second)
        (parseIntOrZero third) basePoints (some cap) =
      min ((parseIntOrZero first : ℚ) * basePoints +
        (parseIntOrZero second : ℚ) * basePoints * 0.5 +
        (parseIntOrZero third : ℚ) * basePoints * 0.25) cap) ∧
    (calculatePublicationPoints first second third basePoints maxPoints name breakdown).2 =
      if 0 < specTierPoints (parseIntOrZero first) (parseIntOrZero second)
          (parseIntOrZero third) basePoints maxPoints then
        breakdown ++ [{ name := name,
                        points := mathRound (specTierPoints (parseIntOrZero first)
                          (parseIntOrZero second) (parseIntOrZero third) basePoints maxPoints),
                        count := parseIntOrZero first + parseIntOrZero second +
                          parseIntOrZero third,
                        details := some { firstAuthor := parseIntOrZero first,
                                          secondAuthor := parseIntOrZero second,
                                          thirdAuthorPlus := parseIntOrZero third } }]
      else breakdown := by
  refine ⟨?_, rfl, fun cap => rfl, ?_⟩
  · rw [calculatePublicationPoints_eq]
    split_ifs <;> rfl
  · rw [calculatePublicationPoints_eq]
    split_ifs <;> rfl

/-! ## The mandatory publication -/

/-- C5, counterexample: in the sciences, tier counts of 1 for A+ and -1 for A
sum to 0, yet `checkRequiredPublication` returns true. -/
theorem checkRequiredPublication_sum_fails :
    mixedSignRecord "specialization" = Val.str "sciences" ∧
    ¬ (checkRequiredPublication mixedSignRecord = true ↔
        aPlusCount mixedSignRecord + aCount mixedSignRecord + bCount mixedSignRecord > 0) := by
  decide

/-- C5, amended: `checkRequiredPublication` returns true iff one of
`aPlusCount`, `aCount`, `bCount` is positive in the sciences, iff one of
`aPlusCount`, `aCount`, `bCount`, `cCount` is positive in the humanities, and
false for any other specialization; when no tier count is negative this is the
positivity of the sum of the counts. -/
theorem checkRequiredPublication_cases (data : Data) :
    (data "specialization" = Val.str "sciences" →
      ((checkRequiredPublication data = true ↔
          (0 < aPlusCount data ∨ 0 < aCount data ∨ 0 < bCount data)) ∧
       (0 ≤ aPlusCount data → 0 ≤ aCount data → 0 ≤ bCount data →
          (checkRequiredPublication data = true ↔
            aPlusCount data + aCount data + bCount data > 0)))) ∧
    (data "specialization" = Val.str "humanities" →
      ((checkRequiredPublication data = true ↔
          (0 < aPlusCount data ∨ 0 < aCount data ∨ 0 < bCount data ∨ 0 < cCount data)) ∧
       (0 ≤ aPlusCount data → 0 ≤ aCount data → 0 ≤ bCount data → 0 ≤ cCount data →
          (checkRequiredPublication data = true ↔
            aPlusCount data + aCount data + bCount data + cCount data > 0)))) ∧
    (data "specialization" ≠ Val.str "sciences" →
      data "specialization" ≠ Val.str "humanities" →
      checkRequiredPublication data = false) := by
  refine ⟨fun hs => ?_, fun hh => ?_, fun hs hh => ?_⟩
  · have key : checkRequiredPublication data = true ↔
        (0 < aPlusCount data ∨ 0 < aCount data ∨ 0 < bCount data) := by
      simp only [checkRequiredPublication, hs, if_true, aPlusCount, aCount, bCount,
        Bool.or_eq_true, decide_eq_true_eq, gt_iff_lt, or_assoc]
    refine ⟨key, fun h1 h2 h3 => ?_⟩
    rw [key]
    constructor
    · rintro (h | h | h) <;> omega
    · intro h
      by_contra hcon
      push_neg at hcon
      omega
  · have hne : ¬ (Val.str "humanities" = Val.str "sciences") := by decide
    have key : checkRequiredPublication data = true ↔
        (0 < aPlusCount data ∨ 0 < aCount data ∨ 0 < bCount data ∨ 0 < cCount data) := by
      simp only [checkRequiredPublication, hh, if_neg hne, if_true, aPlusCount, aCount, bCount,
        cCount, Bool.or_eq_true, decide_eq_true_eq, gt_iff_lt, or_assoc]
    refine ⟨key, fun h1 h2 h3 h4 => ?_⟩
    rw [key]
    constructor
    · rintro (h | h | h | h) <;> omega
    · intro h
      by_contra hcon
      push_neg at hcon
      omega
  · simp only [checkRequiredPublication, if_neg hs, if_neg hh]

/-- C5, amended, at a concrete record: a humanities record with one
third-author C article has the mandatory publication, by the positivity of
`cCount`. -/
theorem checkRequiredPublication_cases_witness :
    humanitiesRecord "specialization" = Val.str "humanities" ∧
    (checkRequiredPublication humanitiesRecord = true ↔
      (0 < aPlusCount humanitiesRecord ∨ 0 < aCount humanitiesRecord ∨
        0 < bCount humanitiesRecord ∨ 0 < cCount humanitiesRecord)) :=
  ⟨by decide, ((checkRequiredPublication_cases humanitiesRecord).2.1 (by decide)).1⟩

/-! ## The reason of an ineligible result -/

theorem collectReasons_eq (totalPoints : ℚ) (teachingYears : Int)
    (hasRequiredPublication : Bool) :
    collectReasons totalPoints teachingYears hasRequiredPublication =
      failingDescriptions (decide (totalPoints < 350)) (decide (teachingYears < 3))
        (!hasRequiredPublication) := by
  unfold collectReasons failingDescriptions minPoints
  by_cases h1 : totalPoints < 350 <;> by_cases h2 : teachingYears < 3 <;>
    cases hasRequiredPublication <;> simp [h1, h2]

theorem eligibilityReason_eq (now : String) (data : Data)
    (h : (calculateQualificationPoints now data).eligible = false) :
    (calculateQualificationPoints now data).eligibilityReason =
      ineligiblePrefix ++ reasonSeparator.intercalate
        (failingDescriptions (decide (unroundedTotal data < 350))
          (decide (parseIntOrZero (data "teachingYears") < 3))
          (!checkRequiredPublication data)) := by
  rw [← collectReasons_eq]
  simp only [calculateQualificationPoints, unroundedTotal] at h ⊢
  split_ifs at h ⊢ with hc
  rfl

/-- C6: when `eligible` is false, `eligibilityReason` is the prefix followed by
the descriptions of exactly the failing conditions (un-rounded sum below 350,
teaching years below 3, mandatory publication missing), in that order, joined
by the separator. -/
theorem eligibilityReason_lists_failing (now : String) (data : Data)
    (h : (calculateQualificationPoints now data).eligible = false) :
    (calculateQualificationPoints now data).eligibilityReason =
      "غير مؤهل: " ++ "، ".intercalate
        (failingDescriptions (decide (unroundedTotal data < 350))
          (decide ((calculateQualificationPoints now data).teachingYears < 3))
          (!(calculateQualificationPoints now data).hasRequiredPublication)) ∧
    failingDescriptions true true true =
      ["نقاط غير كافية", "سنوات تدريس غير كافية", "لا يوجد مقال إجباري"] :=
  ⟨eligibilityReason_eq now data h, rfl⟩

/-- C6 at a concrete record: without points and without publication, with
five teaching years, the reason lists the insufficient points and the missing
publication, not the teaching years. -/
theorem eligibilityReason_lists_failing_witness :
    (calculateQualificationPoints "" blankNameRecord).eligible = false ∧
    (calculateQualificationPoints "" blankNameRecord).eligibilityReason =
      "غير مؤهل: " ++ "، ".intercalate ["نقاط غير كافية", "لا يوجد مقال إجباري"] :=
  ⟨by decide!,
    ((eligibilityReason_lists_failing "" blankNameRecord (by decide!)).1).trans (by decide!)⟩

/-! ## Validation -/

/-- C7, evaluation at the failing input: the first name of three spaces is
empty after trimming and the check of the client refuses it, yet
`validateInputData` accepts the record. -/
theorem validateInputData_accepts_blank_name :
    blankNameRecord "firstName" = Val.str "   " ∧ jsTrim "   " = "" ∧
    validateRequiredFields "   " "Said" "5" = false ∧
    validateInputData blankNameRecord = Except.ok () := by
  refine ⟨by decide, by decide, by decide, by rfl⟩

theorem populatedUnparseable_iff (v : Val) :
    (truthy v && (parseInt v).isNone) = true ↔ populatedUnparseable v := by
  simp only [populatedUnparseable, Bool.and_eq_true, Option.isNone_iff_eq_none]

theorem checkNumericFields_ok_iff (data : Data) (fields : List String) :
    checkNumericFields data fields = Except.ok () ↔
      ∀ field ∈ fields, ¬ populatedUnparseable (data field) := by
  induction fields with
  | nil => simp [checkNumericFields]
  | cons field rest ih =>
    unfold checkNumericFields
    by_cases hbad : (truthy (data field) && (parseInt (data field)).isNone) = true
    · rw [if_pos hbad]
      constructor
      · intro h
        cases h
      · intro h
        exact absurd ((populatedUnparseable_iff _).mp hbad) (h field (List.mem_cons_self _ _))
    · rw [if_neg hbad, ih]
      constructor
      · intro h f hf
        rcases List.mem_cons.mp hf with rfl | hf
        · exact fun hp => hbad ((populatedUnparseable_iff _).mpr hp)
        · exact h f hf
      · intro h f hf
        exact h f (List.mem_cons_of_mem _ hf)

theorem checkNumericFields_error (data : Data) (fields : List String) (message : String)
    (h : checkNumericFields data fields = Except.error message) :
    ∃ field ∈ fields, populatedUnparseable (data field) ∧
      message = invalidValueMessage field := by
  induction fields with
  | nil => simp [checkNumericFields] at h
  | cons field rest ih =>
    unfold checkNumericFields at h
    by_cases hbad : (truthy (data field) && (parseInt (data field)).isNone) = true
    · rw [if_pos hbad] at h
      refine ⟨field, List.mem_cons_self _ _, (populatedUnparseable_iff _).mp hbad, ?_⟩
      injection h with h
      exact h.symm
    · rw [if_neg hbad] at h
      obtain ⟨f, hf, hp, hm⟩ := ih h
      exact ⟨f, List.mem_cons_of_mem _ hf, hp, hm⟩

theorem checkNumericFields_cases (data : Data) (fields : List String) :
    checkNumericFields data fields = Except.ok () ∨
      ∃ field ∈ fields, populatedUnparseable (data field) ∧
        checkNumericFields data fields = Except.error (invalidValueMessage field) := by
  cases h : checkNumericFields data fields with
  | ok u => exact Or.inl rfl
  | error message =>
    obtain ⟨f, hf, hp, hm⟩ := checkNumericFields_error data fields message h
    exact Or.inr ⟨f, hf, hp, by rw [hm]⟩

theorem checkNumericFields_congr (data data' : Data) (fields : List String)
    (h : ∀ field ∈ fields, data' field = data field) :
    checkNumericFields data' fields = checkNumericFields data fields := by
  induction fields with
  | nil => rfl
  | cons field rest ih =>
    unfold checkNumericFields
    rw [h field (List.mem_cons_self _ _), ih (fun f hf => h f (List.mem_cons_of_mem _ hf))]

theorem invalidValueMessage_injective (f g : String)
    (h : invalidValueMessage f = invalidValueMessage g) : f = g := by
  unfold invalidValueMessage at h
  have hdata := congrArg String.data h
  simp only [String.data_append] at hdata
  have hleft := List.append_cancel_right hdata
  have hmid := List.append_cancel_left hleft
  exact String.ext hmid

theorem validateInputData_of_checks (data : Data)
    (hf : truthy (data "firstName") = true) (hl : truthy (data "lastName") = true)
    (hy : truthy (data "teachingYears") = true)
    (hy3 : ∀ n, parseInt (data "teachingYears") = some n → 3 ≤ n) :
    validateInputData data = checkNumericFields data numericFields := by
  unfold validateInputData
  have hmatch : (match parseInt (data "teachingYears") with
      | some n => decide (n < 3)
      | none => false) = false := by
    cases hp : parseInt (data "teachingYears") with
    | none => rfl
    | some n => simpa using hy3 n hp
  simp only [hf, hl, hy, hmatch, Bool.not_true, Bool.or_self, Bool.false_eq_true, if_false]

theorem validateInputData_low_years (data : Data)
    (hf : truthy (data "firstName") = true) (hl : truthy (data "lastName") = true)
    (hlow : truthy (data "teachingYears") = false ∨
      ∃ n, parseInt (data "teachingYears") = some n ∧ n < 3) :
    validateInputData data = Except.error minTeachingYearsMessage := by
  unfold validateInputData
  have hcond : (!truthy (data "teachingYears") ||
      (match parseInt (data "teachingYears") with
       | some n => decide (n < 3)
       | none => false)) = true := by
    rcases hlow with h | ⟨n, hp, hn⟩
    · simp [h]
    · simp [hp, hn]
  simp only [hf, hl, hcond, Bool.not_true, Bool.or_self, Bool.false_eq_true, if_false, if_true]

theorem validateInputData_ok (data : Data) (h : validateInputData data = Except.ok ()) :
    truthy (data "firstName") = true ∧ truthy (data "lastName") = true ∧
      ∃ n, parseInt (data "teachingYears") = some n ∧ 3 ≤ n := by
  have hf : truthy (data "firstName") = true := by
    by_contra hc
    simp [validateInputData, hc] at h
  have hl : truthy (data "lastName") = true := by
    by_contra hc
    simp [validateInputData, hc] at h
  have hy : truthy (data "teachingYears") = true := by
    by_contra hc
    rw [validateInputData_low_years data hf hl (Or.inl (by simpa using hc))] at h
    cases h
  have hy3 : ∀ n, parseInt (data "teachingYears") = some n → 3 ≤ n := by
    intro n hp
    by_contra hc
    rw [validateInputData_low_years data hf hl (Or.inr ⟨n, hp, not_le.mp hc⟩)] at h
    cases h
  rw [validateInputData_of_checks data hf hl hy hy3, checkNumericFields_ok_iff] at h
  have hnot := h "teachingYears" (by simp [numericFields])
  cases hp : parseInt (data "teachingYears") with
  | none => exact absurd ⟨hy, hp⟩ hnot
  | some n => exact ⟨hf, hl, n, rfl, hy3 n hp⟩

theorem calculateFieldPoints_unparseable (value : Val) (config : PointRule) (name : String)
    (breakdown : List Entry) (h : parseInt value = none) :
    calculateFieldPoints value config name breakdown = (0, breakdown) := by
  have h0 : parseIntOrZero value = 0 := by simp [parseIntOrZero, h]
  rw [calculateFieldPoints_eq, if_pos (by rw [h0])]

theorem parseIntOrZero_unparseable (value : Val) (h : parseInt value = none) :
    parseIntOrZero value = parseIntOrZero (Val.num 0) := by
  have h0 : parseIntOrZero (Val.num 0) = 0 := by decide
  rw [h0]
  simp [parseIntOrZero, h]

/-- C8: for a record with non-empty first and last name, `validateInputData`
throws the minimum-teaching-years error when `teachingYears` is absent or
parses to an integer below 3, and a record it accepts has a `teachingYears`
that parses to an integer of at least 3. -/
theorem validateInputData_teaching_years (data : Data)
    (hf : truthy (data "firstName") = true) (hl : truthy (data "lastName") = true) :
    ((data "teachingYears" = Val.undefined ∨
        ∃ n, parseInt (data "teachingYears") = some n ∧ n < 3) →
      validateInputData data = Except.error "الحد الأدنى لسنوات التدريس هو 3 سنوات") ∧
    (validateInputData data = Except.ok () →
      ∃ n, parseInt (data "teachingYears") = some n ∧ 3 ≤ n ∧
        parseIntOrZero (data "teachingYears") = n) := by
  refine ⟨fun h => ?_, fun h => ?_⟩
  · apply validateInputData_low_years data hf hl
    rcases h with h | h
    · left
      rw [h]
      rfl
    · exact Or.inr h
  · obtain ⟨_, _, n, hp, hn⟩ := validateInputData_ok data h
    exact ⟨n, hp, hn, by simp [parseIntOrZero, hp]⟩

/-- C8 at a concrete record: with one teaching year the minimum-teaching-years
error is thrown. -/
theorem validateInputData_teaching_years_witness :
    truthy (lowYearsRecord "firstName") = true ∧ truthy (lowYearsRecord "lastName") = true ∧
    parseInt (lowYearsRecord "teachingYears") = some 1 ∧
    validateInputData lowYearsRecord = Except.error "الحد الأدنى لسنوات التدريس هو 3 سنوات" :=
  ⟨by decide, by decide, by decide,
    (validateInputData_teaching_years lowYearsRecord (by decide) (by decide)).1
      (Or.inr ⟨1, by decide, by decide⟩)⟩

/-- C9: for a record that passes the name and teaching-years checks,
`validateInputData` throws an invalid-value error if and only if one of the
seven fields of `numericFields` holds a populated value that `parseInt` cannot
read, and the error names such a field; otherwise the record is accepted.  The
outcome depends on no key other than the two names and those seven fields, and
a value that `parseInt` cannot read counts as 0 in both point calculations. -/
theorem validateInputData_strict_fields (data : Data)
    (hf : truthy (data "firstName") = true) (hl : truthy (data "lastName") = true)
    (hy : truthy (data "teachingYears") = true)
    (hy3 : ∀ n, parseInt (data "teachingYears") = some n → 3 ≤ n) :
    ((∃ field, validateInputData data = Except.error (invalidValueMessage field)) ↔
      ∃ field ∈ numericFields, populatedUnparseable (data field)) ∧
    (∀ field, validateInputData data = Except.error (invalidValueMessage field) →
      field ∈ numericFields ∧ populatedUnparseable (data field)) ∧
    ((¬ ∃ field ∈ numericFields, populatedUnparseable (data field)) →
      validateInputData data = Except.ok ()) ∧
    (∀ data' : Data,
      (∀ key ∈ "firstName" :: "lastName" :: numericFields, data' key = data key) →
      validateInputData data' = validateInputData data) ∧
    (∀ (value : Val) (config : PointRule) (name : String) (breakdown : List Entry),
      parseInt value = none →
      calculateFieldPoints value config name breakdown = (0, breakdown)) ∧
    (∀ (value second third : Val) (p : ℚ) (cap : Option ℚ) (name : String)
      (breakdown : List Entry), parseInt value = none →
      calculatePublicationPoints value second third p cap name breakdown =
        calculatePublicationPoints (Val.num 0) second third p cap name breakdown ∧
      calculatePublicationPoints second value third p cap name breakdown =
        calculatePublicationPoints second (Val.num 0) third p cap name breakdown ∧
      calculatePublicationPoints second third value p cap name breakdown =
        calculatePublicationPoints second third (Val.num 0) p cap name breakdown) := by
  have hval := validateInputData_of_checks data hf hl hy hy3
  refine ⟨⟨?_, ?_⟩, ?_, ?_, ?_, ?_, ?_⟩
  · rintro ⟨field, hfield⟩
    rw [hval] at hfield
    obtain ⟨f, hmem, hbad, _⟩ := checkNumericFields_error data numericFields _ hfield
    exact ⟨f, hmem, hbad⟩
  · rintro ⟨field, hmem, hbad⟩
    rcases checkNumericFields_cases data numericFields with hok | ⟨f, _, _, herr⟩
    · exact absurd hbad ((checkNumericFields_ok_iff data numericFields).mp hok field hmem)
    · exact ⟨f, by rw [hval, herr]⟩
  · intro field hfield
    rw [hval] at hfield
    obtain ⟨f, hmem, hbad, hmsg⟩ := checkNumericFields_error data numericFields _ hfield
    have hfg : field = f := invalidValueMessage_injective field f hmsg
    rw [hfg]
    exact ⟨hmem, hbad⟩
  · intro hnone
    rw [hval, checkNumericFields_ok_iff]
    intro field hmem hbad
    exact hnone ⟨field, hmem, hbad⟩
  · intro data' hsame
    have h1 : data' "firstName" = data "firstName" := hsame _ (by simp)
    have h2 : data' "lastName" = data "lastName" := hsame _ (by simp)
    have h3 : data' "teachingYears" = data "teachingYears" :=
      hsame _ (by simp [numericFields])
    have h4 : checkNumericFields data' numericFields = checkNumericFields data numericFields :=
      checkNumericFields_congr data data' numericFields
        (fun f hmem => hsame f (List.mem_cons_of_mem _ (List.mem_cons_of_mem _ hmem)))
    unfold validateInputData
    rw [h1, h2, h3, h4]
  · intro value config name breakdown hnone
    exact calculateFieldPoints_unparseable value config name breakdown hnone
  · intro value second third p cap name breakdown hnone
    have h0 := parseIntOrZero_unparseable value hnone
    refine ⟨?_, ?_, ?_⟩ <;>
      rw [calculatePublicationPoints_eq, calculatePublicationPoints_eq, h0]

/-- C9 at a concrete record: `guidedWorks = "abc"` is refused with an
invalid-value error, whatever the unparseable `categoryAFirst` beside it. -/
theorem validateInputData_strict_fields_witness :
    truthy (unparseableRecord "firstName") = true ∧
    truthy (unparseableRecord "lastName") = true ∧
    truthy (unparseableRecord "teachingYears") = true ∧
    parseInt (unparseableRecord "teachingYears") = some 5 ∧
    populatedUnparseable (unparseableRecord "guidedWorks") ∧
    ∃ field, validateInputData unparseableRecord = Except.error (invalidValueMessage field) :=
  ⟨by decide, by decide, by decide, by decide, ⟨by decide, by decide⟩,
    (validateInputData_strict_fields unparseableRecord (by decide) (by decide) (by decide)
      (fun n hn => by
        have h5 : parseInt (unparseableRecord "teachingYears") = some 5 := by decide
        rw [h5] at hn
        injection hn with hn
        omega)).1.mpr ⟨"guidedWorks", by decide, by decide, by decide⟩⟩

/-! ## The strict and the lenient path -/

/-- C10: when `teachingYears` parses to an integer below 3, `validateInputData`
throws and `handleCalculate` answers 422, while `calculateQualificationPoints`
returns a result with `eligible = false` whose reason lists the
insufficient-teaching-years description. -/
theorem low_teaching_years_paths (now : String) (data : Data) (n : Int)
    (hparse : parseInt (data "teachingYears") = some n) (hn : n < 3) :
    (∃ message, validateInputData data = Except.error message) ∧
    (∃ details, handleCalculate now data =
      { status := 422, body := ResponseBody.failure "خطأ في الحساب" details now }) ∧
    (calculateQualificationPoints now data).eligible = false ∧
    (calculateQualificationPoints now data).teachingYears = n ∧
    ∃ pointsFail publicationFail : Bool,
      (calculateQualificationPoints now data).eligibilityReason =
        "غير مؤهل: " ++ "، ".intercalate (failingDescriptions pointsFail true publicationFail) ∧
      "سنوات تدريس غير كافية" ∈ failingDescriptions pointsFail true publicationFail := by
  have hyears : parseIntOrZero (data "teachingYears") = n := by simp [parseIntOrZero, hparse]
  have hthrow : ∃ message, validateInputData data = Except.error message := by
    cases hv : validateInputData data with
    | error message => exact ⟨message, rfl⟩
    | ok u =>
      obtain ⟨_, _, m, hm, hm3⟩ := validateInputData_ok data hv
      rw [hparse] at hm
      injection hm with hm
      omega
  have hinel : (calculateQualificationPoints now data).eligible = false := by
    simp only [calculateQualificationPoints, hyears]
    rw [if_neg]
    rintro ⟨_, h3, _⟩
    omega
  refine ⟨hthrow, ?_, hinel, hyears, ?_⟩
  · obtain ⟨message, hmsg⟩ := hthrow
    exact ⟨message, by simp only [handleCalculate, hmsg]⟩
  · refine ⟨decide (unroundedTotal data < 350), !checkRequiredPublication data, ?_, ?_⟩
    · have hreason := eligibilityReason_eq now data hinel
      rw [hyears] at hreason
      have hdec : decide (n < 3) = true := by simpa using hn
      rw [hdec] at hreason
      exact hreason
    · cases decide (unroundedTotal data < 350) <;> cases checkRequiredPublication data <;>
        decide

/-- C10 at the record with `teachingYears = 1`: the strict path throws, the
lenient path returns an ineligible result. -/
theorem low_teaching_years_paths_witness :
    parseInt (lowYearsRecord "teachingYears") = some 1 ∧ (1 : Int) < 3 ∧
    (∃ message, validateInputData lowYearsRecord = Except.error message) ∧
    (calculateQualificationPoints "" lowYearsRecord).eligible = false :=
  ⟨by decide, by decide,
    (low_teaching_years_paths "" lowYearsRecord 1 (by decide) (by decide)).1,
    (low_teaching_years_paths "" lowYearsRecord 1 (by decide) (by decide)).2.2.1⟩

/-! ## The scoring statements as a fold -/

theorem accumulatePoints_eq_foldl (data : Data) :
    accumulatePoints data = scoringSteps.foldl (runStep data) (0, []) := rfl

theorem fieldContribution_eq (value : Val) (config : PointRule) :
    fieldContribution value config =
      if parseIntOrZero value ≤ 0 then 0
      else specFieldPoints (parseIntOrZero value) config := by
  unfold fieldContribution
  rw [calculateFieldPoints_eq]
  split_ifs <;> rfl

theorem publicationContribution_eq (first second third : Val) (rule : PointRule) :
    publicationContribution first second third rule =
      specTierPoints (parseIntOrZero first) (parseIntOrZero second) (parseIntOrZero third)
        rule.points rule.max := by
  unfold publicationContribution
  rw [calculatePublicationPoints_eq]
  split_ifs <;> rfl

theorem calculateFieldPoints_snd (value : Val) (config : PointRule) (name : String)
    (breakdown : List Entry) :
    (calculateFieldPoints value config name breakdown).2 =
      breakdown ++ (calculateFieldPoints value config name []).2 := by
  rw [calculateFieldPoints_eq, calculateFieldPoints_eq]
  split_ifs <;> simp

theorem calculatePublicationPoints_snd (first second third : Val) (basePoints : ℚ)
    (maxPoints : Option ℚ) (name : String) (breakdown : List Entry) :
    (calculatePublicationPoints first second third basePoints maxPoints name breakdown).2 =
      breakdown ++
        (calculatePublicationPoints first second third basePoints maxPoints name []).2 := by
  rw [calculatePublicationPoints_eq, calculatePublicationPoints_eq]
  split_ifs <;> simp

theorem runStep_fst (data : Data) (st : ℚ × List Entry) (step : ScoringStep) :
    (runStep data st step).1 = st.1 + stepContribution data step := by
  cases step with
  | field key config name => exact addField_fst st (data key) config name
  | publication k1 k2 k3 config name =>
    exact addPublication_fst st (data k1) (data k2) (data k3) config name

theorem runStep_snd (data : Data) (st : ℚ × List Entry) (step : ScoringStep) :
    (runStep data st step).2 = st.2 ++ stepEntries data step := by
  cases step with
  | field key config name =>
    simp only [runStep, stepEntries, addField]
    exact calculateFieldPoints_snd _ _ _ _
  | publication k1 k2 k3 config name =>
    simp only [runStep, stepEntries, addPublication]
    exact calculatePublicationPoints_snd _ _ _ _ _ _ _

theorem foldl_runStep_fst (data : Data) (steps : List ScoringStep) (st : ℚ × List Entry) :
    (steps.foldl (runStep data) st).1 = st.1 + (steps.map (stepContribution data)).sum := by
  induction steps generalizing st with
  | nil => simp
  | cons step rest ih =>
    rw [List.foldl_cons, ih, runStep_fst, List.map_cons, List.sum_cons, add_assoc]

theorem foldl_runStep_snd (data : Data) (steps : List ScoringStep) (st : ℚ × List Entry) :
    (steps.foldl (runStep data) st).2 = st.2 ++ steps.flatMap (stepEntries data) := by
  induction steps generalizing st with
  | nil => simp
  | cons step rest ih =>
    rw [List.foldl_cons, ih, runStep_snd, List.flatMap_cons, List.append_assoc]

theorem unroundedTotal_eq_steps (data : Data) :
    unroundedTotal data = (scoringSteps.map (stepContribution data)).sum := by
  rw [unroundedTotal, accumulatePoints_eq_foldl, foldl_runStep_fst, zero_add]

theorem accumulatePoints_snd (data : Data) :
    (accumulatePoints data).2 = scoringSteps.flatMap (stepEntries data) := by
  rw [accumulatePoints_eq_foldl, foldl_runStep_snd, List.nil_append]

theorem mem_stepEntries (data : Data) (step : ScoringStep) (e : Entry)
    (h : e ∈ stepEntries data step) :
    e.name = step.entryName ∧ 0 < stepContribution data step ∧
      e.points = mathRound (stepContribution data step) := by
  cases step with
  | field key config name =>
    simp only [stepEntries, runStep, addField] at h
    simp only [stepContribution, fieldContribution_eq, ScoringStep.entryName]
    rw [calculateFieldPoints_eq] at h
    split_ifs at h ⊢ with h1 h2
    · simp at h
    · simp only [List.nil_append, List.mem_singleton] at h
      subst h
      exact ⟨rfl, h2, rfl⟩
    · simp at h
  | publication k1 k2 k3 config name =>
    simp only [stepEntries, runStep, addPublication] at h
    simp only [stepContribution, publicationContribution_eq, ScoringStep.entryName]
    rw [calculatePublicationPoints_eq] at h
    split_ifs at h with h1
    · simp only [List.nil_append, List.mem_singleton] at h
      subst h
      exact ⟨rfl, h1, rfl⟩
    · simp at h

theorem mem_breakdown_iff (now : String) (data : Data) (e : Entry) :
    e ∈ (calculateQualificationPoints now data).breakdown ↔
      (∃ step ∈ scoringSteps, e ∈ stepEntries data step) ∧ 0 < e.points := by
  simp only [calculateQualificationPoints, sortBreakdown, List.mem_filter,
    List.mem_insertionSort, accumulatePoints_snd, List.mem_flatMap, decide_eq_true_eq, gt_iff_lt]

/-! ## Facts on the point table and on rounding -/

theorem scoringSteps_table :
    ∀ step ∈ scoringSteps, 0 < step.config.points ∧ step.config.points.den = 1 ∧
      ∀ cap ∈ step.config.max, 0 < cap ∧ cap.den = 1 := by
  decide!

theorem scoringSteps_names_nodup : (scoringSteps.map ScoringStep.entryName).Nodup := by
  decide

theorem mathRound_mono (x y : ℚ) (h : x ≤ y) : mathRound x ≤ mathRound y := by
  unfold mathRound
  exact Int.floor_mono (by linarith)

theorem mathRound_intCast (z : Int) : mathRound (z : ℚ) = z := by
  unfold mathRound
  rw [Int.floor_eq_iff]
  constructor <;> linarith

theorem mathRound_le_of_den_one (x cap : ℚ) (h : x ≤ cap) (hden : cap.den = 1) :
    (mathRound x : ℚ) ≤ cap := by
  have hcap : ((cap.num : Int) : ℚ) = cap := Rat.coe_int_num_of_den_eq_one hden
  have hle := mathRound_mono x cap h
  rw [← hcap, mathRound_intCast] at hle
  rw [← hcap]
  exact_mod_cast hle

theorem capAt_le_cap (raw cap : ℚ) : capAt raw (some cap) ≤ cap := by
  simp only [capAt]
  exact min_le_right _ _

theorem capAt_mono (raw raw' : ℚ) (cap : Option ℚ) (h : raw ≤ raw') :
    capAt raw cap ≤ capAt raw' cap := by
  cases cap with
  | none => exact h
  | some c =>
    simp only [capAt]
    exact min_le_min_right c h

theorem stepContribution_le_cap (data : Data) (step : ScoringStep) (hstep : step ∈ scoringSteps)
    (cap : ℚ) (hcap : step.config.max = some cap) : stepContribution data step ≤ cap := by
  obtain ⟨_, _, hmax⟩ := scoringSteps_table step hstep
  have hpos : 0 < cap := (hmax cap hcap).1
  cases step with
  | field key config name =>
    simp only [ScoringStep.config] at hcap
    simp only [stepContribution, fieldContribution_eq, specFieldPoints, hcap]
    split_ifs
    · exact le_of_lt hpos
    · exact capAt_le_cap _ _
  | publication k1 k2 k3 config name =>
    simp only [ScoringStep.config] at hcap
    simp only [stepContribution, publicationContribution_eq, specTierPoints, hcap]
    exact capAt_le_cap _ _

theorem eligibilityReason_of_eligible (now : String) (data : Data)
    (h : (calculateQualificationPoints now data).eligible = true) :
    (calculateQualificationPoints now data).eligibilityReason = eligibleMessage := by
  simp only [calculateQualificationPoints] at h ⊢
  split_ifs at h ⊢ with hc
  rfl

/-! ## The strict path -/

/-- C11: for every record that `validateInputData` accepts, the result of
`calculateQualificationPoints` has `teachingYears >= 3`, and its reason is the
success message or the list of failing conditions without the teaching-years
condition; the insufficient-teaching-years description does not occur in it. -/
theorem strict_path_years_gate_redundant (now : String) (data : Data)
    (h : validateInputData data = Except.ok ()) :
    3 ≤ (calculateQualificationPoints now data).teachingYears ∧
    ((calculateQualificationPoints now data).eligibilityReason =
        "يحقق جميع المتطلبات: نقاط كافية، سنوات تدريس، مقال إجباري" ∨
      ∃ pointsFail publicationFail : Bool,
        (calculateQualificationPoints now data).eligibilityReason =
          "غير مؤهل: " ++
            "، ".intercalate (failingDescriptions pointsFail false publicationFail) ∧
        "سنوات تدريس غير كافية" ∉ failingDescriptions pointsFail false publicationFail) ∧
    ¬ occursIn "سنوات تدريس غير كافية"
        (calculateQualificationPoints now data).eligibilityReason := by
  obtain ⟨_, _, n, hp, hn⟩ := validateInputData_ok data h
  have hyears : parseIntOrZero (data "teachingYears") = n := by simp [parseIntOrZero, hp]
  have hres : (calculateQualificationPoints now data).teachingYears = n := hyears
  have hreason : (calculateQualificationPoints now data).eligibilityReason = eligibleMessage ∨
      ∃ pointsFail publicationFail : Bool,
        (calculateQualificationPoints now data).eligibilityReason =
          ineligiblePrefix ++
            reasonSeparator.intercalate (failingDescriptions pointsFail false publicationFail) := by
    cases hel : (calculateQualificationPoints now data).eligible with
    | true => exact Or.inl (eligibilityReason_of_eligible now data hel)
    | false =>
      have hr := eligibilityReason_eq now data hel
      have hdec : decide (parseIntOrZero (data "teachingYears") < 3) = false := by
        rw [hyears]
        simpa using hn
      rw [hdec] at hr
      exact Or.inr ⟨_, _, hr⟩
  refine ⟨by rw [hres]; exact hn, ?_, ?_⟩
  · rcases hreason with hr | ⟨pf, ub, hr⟩
    · exact Or.inl hr
    · refine Or.inr ⟨pf, ub, hr, ?_⟩
      cases pf <;> cases ub <;> decide
  · rcases hreason with hr | ⟨pf, ub, hr⟩
    · rw [hr]
      decide!
    · rw [hr]
      cases pf <;> cases ub <;> decide!

/-- C11 at a concrete record: four teaching years pass the strict validation
and the result reports them. -/
theorem strict_path_years_gate_redundant_witness :
    validateInputData emptyFieldRecord = Except.ok () ∧
    3 ≤ (calculateQualificationPoints "" emptyFieldRecord).teachingYears :=
  ⟨by rfl, (strict_path_years_gate_redundant "" emptyFieldRecord (by rfl)).1⟩

/-! ## Caps, monotonicity and authorship weights -/

theorem breakdown_entry_of_step (now : String) (data : Data) (step : ScoringStep)
    (hstep : step ∈ scoringSteps) (e : Entry)
    (he : e ∈ (calculateQualificationPoints now data).breakdown)
    (hname : e.name = step.entryName) :
    e ∈ stepEntries data step := by
  obtain ⟨⟨step', hstep', hmem⟩, _⟩ := (mem_breakdown_iff now data e).mp he
  have hn := (mem_stepEntries data step' e hmem).1
  have heq : step' = step :=
    List.inj_on_of_nodup_map scoringSteps_names_nodup hstep' hstep (by rw [← hn, hname])
  rw [← heq]
  exact hmem

/-- C12: the point table has 14 capped rules, 13 of simple fields and that of
tier C; for every record and every capped rule, the contribution of its field
to the un-rounded total is at most the cap, and so are the points of the
breakdown entry of that field.  Ten yearly lessons give the entry of 45 points
and count 10. -/
theorem cap_enforcement (now : String) (data : Data) :
    (scoringSteps.filter (fun step => step.config.max.isSome)).length = 14 ∧
    (scoringSteps.filter (fun step => step.isField && step.config.max.isSome)).length = 13 ∧
    (∀ step ∈ scoringSteps, ∀ cap, step.config.max = some cap →
      stepContribution data step ≤ cap ∧
      ∀ e ∈ (calculateQualificationPoints now data).breakdown,
        e.name = step.entryName → (e.points : ℚ) ≤ cap) ∧
    (parseIntOrZero (data "lessonsPerYear") = 10 →
      ({ name := "الدروس السنوية", points := 45, count := 10, details := none } : Entry) ∈
        (calculateQualificationPoints now data).breakdown) := by
  refine ⟨by decide, by decide, ?_, ?_⟩
  · intro step hstep cap hcap
    have hle := stepContribution_le_cap data step hstep cap hcap
    refine ⟨hle, fun e he hname => ?_⟩
    have hmem := breakdown_entry_of_step now data step hstep e he hname
    rw [(mem_stepEntries data step e hmem).2.2]
    exact mathRound_le_of_den_one _ _ hle ((scoringSteps_table step hstep).2.2 cap hcap).2
  · intro hten
    rw [mem_breakdown_iff]
    refine ⟨⟨.field "lessonsPerYear" pointsConfig.lessonsPerYear "الدروس السنوية",
      by simp [scoringSteps], ?_⟩, by decide⟩
    have hspec : specFieldPoints 10 pointsConfig.lessonsPerYear = 45 := by
      norm_num [specFieldPoints, pointsConfig, capAt]
    have hround : mathRound 45 = 45 := mathRound_intCast 45
    simp only [stepEntries, runStep, addField]
    rw [calculateFieldPoints_eq, hten, if_neg (by decide), hspec, if_pos (by norm_num), hround]
    simp

/-- C12 at a concrete record: the record with ten yearly lessons has the entry
of 45 points and count 10. -/
theorem cap_enforcement_witness :
    parseIntOrZero (tenLessonsRecord "lessonsPerYear") = 10 ∧
    ({ name := "الدروس السنوية", points := 45, count := 10, details := none } : Entry) ∈
      (calculateQualificationPoints "" tenLessonsRecord).breakdown :=
  ⟨by decide, (cap_enforcement "" tenLessonsRecord).2.2.2 (by decide)⟩

theorem simple_keys_not_publication :
    ∀ key ∈ simpleFieldKeys, key ∉ publicationKeys := by
  decide

theorem publication_step_keys (step : ScoringStep) (hstep : step ∈ scoringSteps)
    (hpub : step.isField = false) : ∀ key ∈ step.keys, key ∈ publicationKeys := by
  intro key hkey
  simp only [publicationKeys, List.mem_flatMap, List.mem_filter]
  exact ⟨step, ⟨hstep, by simp [hpub]⟩, hkey⟩

theorem setField_same (data : Data) (key : String) (value : Val) :
    setField data key value key = value := by
  simp [setField]

theorem setField_other (data : Data) (key : String) (value : Val) (k : String) (h : k ≠ key) :
    setField data key value k = data k := by
  simp [setField, h]

theorem fieldContribution_mono (value value' : Val) (config : PointRule)
    (hp : 0 < config.points) (hcap : ∀ cap, config.max = some cap → 0 < cap)
    (hle : parseIntOrZero value ≤ parseIntOrZero value') :
    fieldContribution value config ≤ fieldContribution value' config := by
  rw [fieldContribution_eq, fieldContribution_eq]
  by_cases h' : parseIntOrZero value' ≤ 0
  · rw [if_pos h', if_pos (le_trans hle h')]
  · rw [if_neg h']
    have hpos' := specFieldPoints_pos config hp hcap _ (not_le.mp h')
    by_cases h : parseIntOrZero value ≤ 0
    · rw [if_pos h]
      exact le_of_lt hpos'
    · rw [if_neg h]
      unfold specFieldPoints
      apply capAt_mono
      have hcast : (parseIntOrZero value : ℚ) ≤ (parseIntOrZero value' : ℚ) := by
        exact_mod_cast hle
      exact mul_le_mul_of_nonneg_right hcast (le_of_lt hp)

theorem stepContribution_setField_mono (data : Data) (key : String) (value : Val)
    (hkey : key ∈ simpleFieldKeys)
    (hle : parseIntOrZero (data key) ≤ parseIntOrZero value)
    (step : ScoringStep) (hstep : step ∈ scoringSteps) :
    stepContribution data step ≤ stepContribution (setField data key value) step := by
  obtain ⟨hp, _, hmax⟩ := scoringSteps_table step hstep
  cases step with
  | field k config name =>
    simp only [stepContribution]
    by_cases hk : k = key
    · subst hk
      rw [setField_same]
      exact fieldContribution_mono _ _ config hp (fun cap hc => (hmax cap hc).1) hle
    · rw [setField_other data key value k hk]
  | publication k1 k2 k3 config name =>
    have hkeys := publication_step_keys _ hstep rfl
    have hnot := simple_keys_not_publication key hkey
    have h1 : k1 ≠ key := fun h => hnot (h ▸ hkeys k1 (by simp [ScoringStep.keys]))
    have h2 : k2 ≠ key := fun h => hnot (h ▸ hkeys k2 (by simp [ScoringStep.keys]))
    have h3 : k3 ≠ key := fun h => hnot (h ▸ hkeys k3 (by simp [ScoringStep.keys]))
    simp only [stepContribution]
    rw [setField_other data key value k1 h1, setField_other data key value k2 h2,
      setField_other data key value k3 h3]

/-- C13: for every record and every simple activity field, replacing the value
of the field by one whose coerced count is at least as large, all other fields
unchanged, does not decrease the returned `totalPoints`. -/
theorem totalPoints_monotone_simple_field (now : String) (data : Data) (key : String)
    (value : Val) (hkey : key ∈ simpleFieldKeys)
    (hle : parseIntOrZero (data key) ≤ parseIntOrZero value) :
    (calculateQualificationPoints now data).totalPoints ≤
      (calculateQualificationPoints now (setField data key value)).totalPoints := by
  have htotal : ∀ d : Data, (calculateQualificationPoints now d).totalPoints =
      mathRound (unroundedTotal d) := fun _ => rfl
  rw [htotal, htotal, unroundedTotal_eq_steps, unroundedTotal_eq_steps]
  apply mathRound_mono
  apply List.sum_le_sum
  intro step hstep
  exact stepContribution_setField_mono data key value hkey hle step hstep

/-- C13 at a concrete record: raising `lessonsPerYear` from 10 to 50, beyond
the cap, does not decrease the total. -/
theorem totalPoints_monotone_simple_field_witness :
    "lessonsPerYear" ∈ simpleFieldKeys ∧
    parseIntOrZero (tenLessonsRecord "lessonsPerYear") ≤ parseIntOrZero (Val.num 50) ∧
    (calculateQualificationPoints "" tenLessonsRecord).totalPoints ≤
      (calculateQualificationPoints ""
        (setField tenLessonsRecord "lessonsPerYear" (Val.num 50))).totalPoints :=
  ⟨by decide, by decide,
    totalPoints_monotone_simple_field "" tenLessonsRecord "lessonsPerYear" (Val.num 50)
      (by decide) (by decide)⟩

theorem calculatePublicationPoints_of_counts (first second third : Val) (a b c : Int)
    (ha : parseIntOrZero first = a) (hb : parseIntOrZero second = b)
    (hc : parseIntOrZero third = c) (p : ℚ) (cap : Option ℚ) (name : String)
    (breakdown : List Entry) (v : ℚ) (hv : specTierPoints a b c p cap = v) (hpos : 0 < v)
    (r : Int) (hr : mathRound v = r) :
    calculatePublicationPoints first second third p cap name breakdown =
      (v, breakdown ++ [{ name := name, points := r, count := a + b + c,
                          details := some { firstAuthor := a, secondAuthor := b,
                                            thirdAuthorPlus := c } }]) := by
  rw [calculatePublicationPoints_eq, ha, hb, hc, hv, if_pos hpos, hr]

/-- C14: in each tier without cap (A+ with 100 points, A with 90, B with 60),
one first-author article yields an entry of `p` points, one second-author
article an entry of `round(0.5*p)` points and one third-author article an entry
of `round(0.25*p)` points: 100/50/25, 90/45/23 and 60/30/15. -/
theorem authorship_weighting (one zero : Val) (h1 : parseIntOrZero one = 1)
    (h0 : parseIntOrZero zero = 0) (name : String) (breakdown : List Entry) :
    (pointsConfig.categoryAPlus = ⟨100, none⟩ ∧ pointsConfig.categoryA = ⟨90, none⟩ ∧
      pointsConfig.categoryB = ⟨60, none⟩) ∧
    (calculatePublicationPoints one zero zero pointsConfig.categoryAPlus.points
        pointsConfig.categoryAPlus.max name breakdown =
      (100, breakdown ++ [⟨name, 100, 1, some ⟨1, 0, 0⟩⟩]) ∧
     calculatePublicationPoints zero one zero pointsConfig.categoryAPlus.points
        pointsConfig.categoryAPlus.max name breakdown =
      (50, breakdown ++ [⟨name, 50, 1, some ⟨0, 1, 0⟩⟩]) ∧
     calculatePublicationPoints zero zero one pointsConfig.categoryAPlus.points
        pointsConfig.categoryAPlus.max name breakdown =
      (25, breakdown ++ [⟨name, 25, 1, some ⟨0, 0, 1⟩⟩])) ∧
    (calculatePublicationPoints one zero zero pointsConfig.categoryA.points
        pointsConfig.categoryA.max name breakdown =
      (90, breakdown ++ [⟨name, 90, 1, some ⟨1, 0, 0⟩⟩]) ∧
     calculatePublicationPoints zero one zero pointsConfig.categoryA.points
        pointsConfig.categoryA.max name breakdown =
      (45, breakdown ++ [⟨name, 45, 1, some ⟨0, 1, 0⟩⟩]) ∧
     calculatePublicationPoints zero zero one pointsConfig.categoryA.points
        pointsConfig.categoryA.max name breakdown =
      (45 / 2, breakdown ++ [⟨name, 23, 1, some ⟨0, 0, 1⟩⟩])) ∧
    (calculatePublicationPoints one zero zero pointsConfig.categoryB.points
        pointsConfig.categoryB.max name breakdown =
      (60, breakdown ++ [⟨name, 60, 1, some ⟨1, 0, 0⟩⟩]) ∧
     calculatePublicationPoints zero one zero pointsConfig.categoryB.points
        pointsConfig.categoryB.max name breakdown =
      (30, breakdown ++ [⟨name, 30, 1, some ⟨0, 1, 0⟩⟩]) ∧
     calculatePublicationPoints zero zero one pointsConfig.categoryB.points
        pointsConfig.categoryB.max name breakdown =
      (15, breakdown ++ [⟨name, 15, 1, some ⟨0, 0, 1⟩⟩])) := by
  have r100 : mathRound 100 = 100 := mathRound_intCast 100
  have r50 : mathRound 50 = 50 := mathRound_intCast 50
  have r25 : mathRound 25 = 25 := mathRound_intCast 25
  have r90 : mathRound 90 = 90 := mathRound_intCast 90
  have r45 : mathRound 45 = 45 := mathRound_intCast 45
  have r23 : mathRound (45 / 2) = 23 := by decide!
  have r60 : mathRound 60 = 60 := mathRound_intCast 60
  have r30 : mathRound 30 = 30 := mathRound_intCast 30
  have r15 : mathRound 15 = 15 := mathRound_intCast 15
  refine ⟨⟨rfl, rfl, rfl⟩, ⟨?_, ?_, ?_⟩, ⟨?_, ?_, ?_⟩, ⟨?_, ?_, ?_⟩⟩
  · exact calculatePublicationPoints_of_counts one zero zero 1 0 0 h1 h0 h0 _ _ name breakdown
      100 (by norm_num [specTierPoints, capAt, pointsConfig]) (by norm_num) 100 r100
  · exact calculatePublicationPoints_of_counts zero one zero 0 1 0 h0 h1 h0 _ _ name breakdown
      50 (by norm_num [specTierPoints, capAt, pointsConfig]) (by norm_num) 50 r50
  · exact calculatePublicationPoints_of_counts zero zero one 0 0 1 h0 h0 h1 _ _ name breakdown
      25 (by norm_num [specTierPoints, capAt, pointsConfig]) (by norm_num) 25 r25
  · exact calculatePublicationPoints_of_counts one zero zero 1 0 0 h1 h0 h0 _ _ name breakdown
      90 (by norm_num [specTierPoints, capAt, pointsConfig]) (by norm_num) 90 r90
  · exact calculatePublicationPoints_of_counts zero one zero 0 1 0 h0 h1 h0 _ _ name breakdown
      45 (by norm_num [specTierPoints, capAt, pointsConfig]) (by norm_num) 45 r45
  · exact calculatePublicationPoints_of_counts zero zero one 0 0 1 h0 h0 h1 _ _ name breakdown
      (45 / 2) (by norm_num [specTierPoints, capAt, pointsConfig]) (by norm_num) 23 r23
  · exact calculatePublicationPoints_of_counts one zero zero 1 0 0 h1 h0 h0 _ _ name breakdown
      60 (by norm_num [specTierPoints, capAt, pointsConfig]) (by norm_num) 60 r60
  · exact calculatePublicationPoints_of_counts zero one zero 0 1 0 h0 h1 h0 _ _ name breakdown
      30 (by norm_num [specTierPoints, capAt, pointsConfig]) (by norm_num) 30 r30
  · exact calculatePublicationPoints_of_counts zero zero one 0 0 1 h0 h0 h1 _ _ name breakdown
      15 (by norm_num [specTierPoints, capAt, pointsConfig]) (by norm_num) 15 r15

/-- C14 at concrete values: the number 1 and an absent field as counts give the
third-author entry of tier A, 23 points for 22.5. -/
theorem authorship_weighting_witness :
    parseIntOrZero (Val.num 1) = 1 ∧ parseIntOrZero Val.undefined = 0 ∧
    calculatePublicationPoints Val.undefined Val.undefined (Val.num 1)
        pointsConfig.categoryA.points pointsConfig.categoryA.max "مقالات الصنف \"أ\" الدولية" [] =
      (45 / 2, [] ++ [⟨"مقالات الصنف \"أ\" الدولية", 23, 1, some ⟨0, 0, 1⟩⟩]) :=
  ⟨by decide, by decide,
    (authorship_weighting (Val.num 1) Val.undefined (by decide) (by decide)
      "مقالات الصنف \"أ\" الدولية" []).2.2.1.2.2⟩

/-! ## The breakdown -/

/-- C15: no entry of the returned breakdown has 0 points; the points of every
entry are at least 1. -/
theorem breakdown_points_positive (now : String) (data : Data) (e : Entry)
    (he : e ∈ (calculateQualificationPoints now data).breakdown) :
    e.points ≠ 0 ∧ 1 ≤ e.points := by
  have hpos := ((mem_breakdown_iff now data e).mp he).2
  omega

/-- C15 at a concrete record: with counts of 1 for A+ and -1 for A, the only
entry is that of tier A+, of 100 points. -/
theorem breakdown_points_positive_witness :
    (calculateQualificationPoints "" mixedSignRecord).breakdown =
      [⟨"مقالات الصنف \"أ+\" الدولية", 100, 1, some ⟨1, 0, 0⟩⟩] ∧
    ((100 : Int) ≠ 0 ∧ (1 : Int) ≤ 100) :=
  ⟨by decide!,
    breakdown_points_positive "" mixedSignRecord
      ⟨"مقالات الصنف \"أ+\" الدولية", 100, 1, some ⟨1, 0, 0⟩⟩ (by decide!)⟩

theorem sortBreakdown_pairwise (breakdown : List Entry) :
    List.Pairwise byPointsDescending (sortBreakdown breakdown) := by
  haveI : IsTotal Entry byPointsDescending := ⟨fun a b => le_total b.points a.points⟩
  haveI : IsTrans Entry byPointsDescending :=
    ⟨fun a b c hab hbc => le_trans hbc hab⟩
  exact List.sorted_insertionSort byPointsDescending breakdown

/-- C16: the returned breakdown is sorted by points in non-increasing order:
each entry has at least the points of every later entry, in particular of the
next one. -/
theorem breakdown_sorted (now : String) (data : Data) :
    List.Pairwise (fun a b : Entry => b.points ≤ a.points)
      (calculateQualificationPoints now data).breakdown ∧
    ∀ (i : Nat) (h : i + 1 < (calculateQualificationPoints now data).breakdown.length),
      ((calculateQualificationPoints now data).breakdown.get ⟨i + 1, h⟩).points ≤
        ((calculateQualificationPoints now data).breakdown.get
          ⟨i, Nat.lt_of_succ_lt h⟩).points := by
  have hpair : List.Pairwise (fun a b : Entry => b.points ≤ a.points)
      (calculateQualificationPoints now data).breakdown :=
    List.Pairwise.filter _ (sortBreakdown_pairwise _)
  refine ⟨hpair, fun i h => ?_⟩
  exact (List.pairwise_iff_get.mp hpair) ⟨i, Nat.lt_of_succ_lt h⟩ ⟨i + 1, h⟩
    (by simp [Fin.lt_def])

/-- C16 at a concrete record: the entries of 300, 27 and 23 points come in this
order, and the second has no more points than the first. -/
theorem breakdown_sorted_witness :
    ((calculateQualificationPoints "" halfPointRecord).breakdown.map Entry.points =
      [300, 27, 23]) ∧
    ∃ h : 0 + 1 < (calculateQualificationPoints "" halfPointRecord).breakdown.length,
      ((calculateQualificationPoints "" halfPointRecord).breakdown.get ⟨0 + 1, h⟩).points ≤
        ((calculateQualificationPoints "" halfPointRecord).breakdown.get
          ⟨0, Nat.lt_of_succ_lt h⟩).points :=
  ⟨by decide!, ⟨by decide!, (breakdown_sorted "" halfPointRecord).2 0 (by decide!)⟩⟩

/-! ## The two point tables -/

/-- C19: the point table of the client, `APP_CONFIG.points`, and the table of
the worker, `pointsConfig`, have the same 27 keys with the same `points` and
`max` under every key; the rules of the worker's table are those the scoring
statements use. -/
theorem point_tables_identical :
    appConfigPoints = pointsConfigEntries ∧
    appConfigPoints.length = 27 ∧ pointsConfigEntries.length = 27 ∧
    (appConfigPoints.map Prod.fst).Nodup ∧
    appConfigPoints.map Prod.fst = pointsConfigEntries.map Prod.fst ∧
    (∀ key : String, appConfigPoints.lookup key = pointsConfigEntries.lookup key) ∧
    scoringSteps.map ScoringStep.config = pointsConfigEntries.map Prod.snd := by
  refine ⟨rfl, rfl, rfl, by decide, rfl, fun key => rfl, rfl⟩

/-! ## Records with given counts -/

theorem eligible_iff (now : String) (data : Data) :
    (calculateQualificationPoints now data).eligible = true ↔
      (350 ≤ unroundedTotal data ∧ 3 ≤ parseIntOrZero (data "teachingYears") ∧
        checkRequiredPublication data = true) := by
  simp only [calculateQualificationPoints, unroundedTotal, minPoints, ge_iff_le]
  split_ifs with h
  · simpa using h
  · simpa using h

theorem checkRequiredPublication_sciences (data : Data)
    (hs : data "specialization" = Val.str "sciences") :
    checkRequiredPublication data = true ↔
      (0 < aPlusCount data ∨ 0 < aCount data ∨ 0 < bCount data) := by
  simp only [checkRequiredPublication, hs, if_true, aPlusCount, aCount, bCount,
    Bool.or_eq_true, decide_eq_true_eq, gt_iff_lt, or_assoc]

theorem checkRequiredPublication_of_zero (data : Data)
    (hpub : ∀ key ∈ publicationKeys, parseIntOrZero (data key) = 0) :
    checkRequiredPublication data = false := by
  have h1 := hpub "categoryAPlusFirst" (by decide)
  have h2 := hpub "categoryAPlusSecond" (by decide)
  have h3 := hpub "categoryAPlusThird" (by decide)
  have h4 := hpub "categoryAFirst" (by decide)
  have h5 := hpub "categoryASecond" (by decide)
  have h6 := hpub "categoryAThird" (by decide)
  have h7 := hpub "categoryBFirst" (by decide)
  have h8 := hpub "categoryBSecond" (by decide)
  have h9 := hpub "categoryBThird" (by decide)
  have h10 := hpub "categoryCFirst" (by decide)
  have h11 := hpub "categoryCSecond" (by decide)
  have h12 := hpub "categoryCThird" (by decide)
  simp only [checkRequiredPublication, h1, h2, h3, h4, h5, h6, h7, h8, h9, h10, h11, h12]
  split_ifs <;> decide

theorem stepContribution_eq_zero (data : Data) (step : ScoringStep)
    (hstep : step ∈ scoringSteps)
    (hz : ∀ key ∈ step.keys, parseIntOrZero (data key) = 0) :
    stepContribution data step = 0 := by
  obtain ⟨_, _, hmax⟩ := scoringSteps_table step hstep
  cases step with
  | field key config name =>
    have h0 := hz key (by simp [ScoringStep.keys])
    simp only [stepContribution, fieldContribution_eq, h0]
    rw [if_pos (le_refl 0)]
  | publication k1 k2 k3 config name =>
    have h1 := hz k1 (by simp [ScoringStep.keys])
    have h2 := hz k2 (by simp [ScoringStep.keys])
    have h3 := hz k3 (by simp [ScoringStep.keys])
    simp only [stepContribution, publicationContribution_eq, h1, h2, h3, specTierPoints]
    simp only [ScoringStep.config] at hmax
    cases hc : config.max with
    | none => norm_num [capAt]
    | some cap =>
      have hpos := (hmax cap hc).1
      norm_num [capAt]
      exact le_of_lt hpos

theorem sum_map_single (before after : List ScoringStep) (step : ScoringStep)
    (f : ScoringStep → ℚ) (hb : ∀ x ∈ before, f x = 0) (ha : ∀ x ∈ after, f x = 0) :
    ((before ++ step :: after).map f).sum = f step := by
  have hbsum : (before.map f).sum = 0 := by
    apply List.sum_eq_zero
    intro x hx
    obtain ⟨y, hy, rfl⟩ := List.mem_map.mp hx
    exact hb y hy
  have hasum : (after.map f).sum = 0 := by
    apply List.sum_eq_zero
    intro x hx
    obtain ⟨y, hy, rfl⟩ := List.mem_map.mp hx
    exact ha y hy
  rw [List.map_append, List.sum_append, List.map_cons, List.sum_cons, hbsum, hasum]
  ring

theorem intercalate_singleton (sep text : String) : sep.intercalate [text] = text := rfl

theorem scoringSteps_split_tierA :
    scoringSteps = scoringSteps.take 12 ++
      ScoringStep.publication "categoryAFirst" "categoryASecond" "categoryAThird"
        pointsConfig.categoryA "مقالات الصنف \"أ\" الدولية" :: scoringSteps.drop 13 := rfl

theorem keys_beside_tierA :
    (∀ step ∈ scoringSteps.take 12, ∀ key ∈ step.keys,
      key ∈ countKeys ∧ key ≠ "categoryAFirst") ∧
    (∀ step ∈ scoringSteps.drop 13, ∀ key ∈ step.keys,
      key ∈ countKeys ∧ key ≠ "categoryAFirst") := by
  decide

theorem unroundedTotal_tierA_only (data : Data) (k : Int)
    (hA : parseIntOrZero (data "categoryAFirst") = k)
    (hother : ∀ key ∈ countKeys, key ≠ "categoryAFirst" → parseIntOrZero (data key) = 0) :
    unroundedTotal data = ((90 * k : Int) : ℚ) := by
  have hbefore : ∀ step ∈ scoringSteps.take 12, stepContribution data step = 0 :=
    fun step hstep => stepContribution_eq_zero data step (List.mem_of_mem_take hstep)
      (fun key hkey => hother key (keys_beside_tierA.1 step hstep key hkey).1
        (keys_beside_tierA.1 step hstep key hkey).2)
  have hafter : ∀ step ∈ scoringSteps.drop 13, stepContribution data step = 0 :=
    fun step hstep => stepContribution_eq_zero data step (List.mem_of_mem_drop hstep)
      (fun key hkey => hother key (keys_beside_tierA.2 step hstep key hkey).1
        (keys_beside_tierA.2 step hstep key hkey).2)
  have hS := hother "categoryASecond" (by decide) (by decide)
  have hT := hother "categoryAThird" (by decide) (by decide)
  rw [unroundedTotal_eq_steps, scoringSteps_split_tierA,
    sum_map_single _ _ _ _ hbefore hafter]
  simp only [stepContribution, publicationContribution_eq, hA, hS, hT]
  norm_num [specTierPoints, capAt, pointsConfig]
  ring

/-- C17: for a sciences record with 5 teaching years whose count of
first-author A articles is `k` and whose other counts are all 0, the returned
total is `90*k`, `hasRequiredPublication` is `k > 0` and `eligible` is true
exactly when `k >= 4`; for `0 < k < 4`, so for `k = 2`, the reason lists the
insufficient points only. -/
theorem first_author_A_scenario (now : String) (data : Data) (k : Int)
    (hspec : data "specialization" = Val.str "sciences")
    (hyears : parseIntOrZero (data "teachingYears") = 5)
    (hA : parseIntOrZero (data "categoryAFirst") = k)
    (hother : ∀ key ∈ countKeys, key ≠ "categoryAFirst" → parseIntOrZero (data key) = 0) :
    (calculateQualificationPoints now data).totalPoints = 90 * k ∧
    (calculateQualificationPoints now data).hasRequiredPublication = decide (0 < k) ∧
    ((calculateQualificationPoints now data).eligible = true ↔ 4 ≤ k) ∧
    (0 < k → k < 4 →
      (calculateQualificationPoints now data).eligibilityReason =
        "غير مؤهل: " ++ "نقاط غير كافية") := by
  have htotal := unroundedTotal_tierA_only data k hA hother
  have h1 := hother "categoryAPlusFirst" (by decide) (by decide)
  have h2 := hother "categoryAPlusSecond" (by decide) (by decide)
  have h3 := hother "categoryAPlusThird" (by decide) (by decide)
  have h5 := hother "categoryASecond" (by decide) (by decide)
  have h6 := hother "categoryAThird" (by decide) (by decide)
  have h7 := hother "categoryBFirst" (by decide) (by decide)
  have h8 := hother "categoryBSecond" (by decide) (by decide)
  have h9 := hother "categoryBThird" (by decide) (by decide)
  have hcheck : checkRequiredPublication data = true ↔ 0 < k := by
    rw [checkRequiredPublication_sciences data hspec]
    simp only [aPlusCount, aCount, bCount, h1, h2, h3, hA, h5, h6, h7, h8, h9]
    omega
  have hpoints : (350 : ℚ) ≤ unroundedTotal data ↔ 4 ≤ k := by
    rw [htotal]
    have hcast : ((350 : Int) : ℚ) = 350 := by norm_num
    rw [← hcast, Int.cast_le]
    omega
  have hel : (calculateQualificationPoints now data).eligible = true ↔ 4 ≤ k := by
    rw [eligible_iff, hpoints, hyears, hcheck]
    omega
  refine ⟨?_, ?_, hel, ?_⟩
  · have hr : (calculateQualificationPoints now data).totalPoints =
        mathRound (unroundedTotal data) := rfl
    rw [hr, htotal, mathRound_intCast]
  · have hr : (calculateQualificationPoints now data).hasRequiredPublication =
        checkRequiredPublication data := rfl
    rw [hr, Bool.eq_iff_iff, hcheck, decide_eq_true_eq]
  · intro hpos hlt
    have hnot : (calculateQualificationPoints now data).eligible = false := by
      rw [← Bool.not_eq_true, hel]
      omega
    rw [eligibilityReason_eq now data hnot]
    have hd1 : decide (unroundedTotal data < 350) = true := by
      rw [decide_eq_true_eq, lt_iff_not_le, hpoints]
      omega
    have hd2 : decide (parseIntOrZero (data "teachingYears") < 3) = false := by
      rw [hyears]
      decide
    have hd3 : (!checkRequiredPublication data) = false := by
      rw [hcheck.mpr hpos]
      rfl
    rw [hd1, hd2, hd3]
    rfl

/-- C17 at the two scenario records: two first-author A articles give 180
points, not eligible, for insufficient points only; four give 360 points,
eligible. -/
theorem first_author_A_scenario_witness :
    ((calculateQualificationPoints "" twoArticlesRecord).totalPoints = 90 * 2 ∧
      (calculateQualificationPoints "" twoArticlesRecord).hasRequiredPublication = true ∧
      (calculateQualificationPoints "" twoArticlesRecord).eligible = false ∧
      (calculateQualificationPoints "" twoArticlesRecord).eligibilityReason =
        "غير مؤهل: " ++ "نقاط غير كافية") ∧
    ((calculateQualificationPoints "" fourArticlesRecord).totalPoints = 90 * 4 ∧
      (calculateQualificationPoints "" fourArticlesRecord).eligible = true) :=
  ⟨⟨(first_author_A_scenario "" twoArticlesRecord 2 (by decide) (by decide) (by decide)
        (by decide)).1,
      by decide!, by decide!,
      (first_author_A_scenario "" twoArticlesRecord 2 (by decide) (by decide) (by decide)
        (by decide)).2.2.2 (by decide) (by decide)⟩,
    ⟨(first_author_A_scenario "" fourArticlesRecord 4 (by decide) (by decide) (by decide)
        (by decide)).1,
      (first_author_A_scenario "" fourArticlesRecord 4 (by decide) (by decide) (by decide)
        (by decide)).2.2.1.mpr (by decide)⟩⟩

/-! ## Records without publication -/

theorem stepContribution_integral (data : Data) (step : ScoringStep)
    (hstep : step ∈ scoringSteps)
    (hpub : step.isField = false → ∀ key ∈ step.keys, parseIntOrZero (data key) = 0) :
    ∃ z : Int, stepContribution data step = (z : ℚ) := by
  obtain ⟨_, hden, hmax⟩ := scoringSteps_table step hstep
  cases step with
  | field key config name =>
    simp only [ScoringStep.config] at hden hmax
    have hp : ((config.points.num : Int) : ℚ) = config.points :=
      Rat.coe_int_num_of_den_eq_one hden
    simp only [stepContribution, fieldContribution_eq, specFieldPoints]
    split_ifs
    · exact ⟨0, by simp⟩
    · cases hc : config.max with
      | none =>
        refine ⟨parseIntOrZero (data key) * config.points.num, ?_⟩
        simp only [capAt]
        push_cast
        rw [hp]
      | some cap =>
        have hcap : ((cap.num : Int) : ℚ) = cap :=
          Rat.coe_int_num_of_den_eq_one (hmax cap hc).2
        refine ⟨min (parseIntOrZero (data key) * config.points.num) cap.num, ?_⟩
        simp only [capAt]
        push_cast
        rw [hp, hcap]
  | publication k1 k2 k3 config name =>
    exact ⟨0, by rw [stepContribution_eq_zero data _ hstep (hpub rfl)]; simp⟩

theorem sum_map_integral (steps : List ScoringStep) (f : ScoringStep → ℚ)
    (h : ∀ step ∈ steps, ∃ z : Int, f step = (z : ℚ)) :
    ∃ z : Int, (steps.map f).sum = (z : ℚ) := by
  induction steps with
  | nil => exact ⟨0, by simp⟩
  | cons step rest ih =>
    obtain ⟨a, ha⟩ := h step (List.mem_cons_self _ _)
    obtain ⟨b, hb⟩ := ih (fun x hx => h x (List.mem_cons_of_mem _ hx))
    exact ⟨a + b, by rw [List.map_cons, List.sum_cons, ha, hb]; push_cast; rfl⟩

theorem unroundedTotal_integral (data : Data)
    (hpub : ∀ key ∈ publicationKeys, parseIntOrZero (data key) = 0) :
    ∃ z : Int, unroundedTotal data = (z : ℚ) := by
  rw [unroundedTotal_eq_steps]
  apply sum_map_integral
  intro step hstep
  exact stepContribution_integral data step hstep
    (fun hfield key hkey => hpub key (publication_step_keys step hstep hfield key hkey))

/-- C18: a record whose twelve publication counts are all 0 has
`hasRequiredPublication = false` and `eligible = false`, whatever its
specialization, points and teaching years; when its total is at least 350 and
its teaching years at least 3, the reason lists the missing mandatory
publication and nothing else. -/
theorem no_publication_not_eligible (now : String) (data : Data)
    (hpub : ∀ key ∈ publicationKeys, parseIntOrZero (data key) = 0) :
    (calculateQualificationPoints now data).hasRequiredPublication = false ∧
    (calculateQualificationPoints now data).eligible = false ∧
    (350 ≤ (calculateQualificationPoints now data).totalPoints →
      3 ≤ (calculateQualificationPoints now data).teachingYears →
      (calculateQualificationPoints now data).eligibilityReason =
        "غير مؤهل: " ++ "لا يوجد مقال إجباري") ∧
    (350 ≤ unroundedTotal data →
      3 ≤ (calculateQualificationPoints now data).teachingYears →
      (calculateQualificationPoints now data).eligibilityReason =
        "غير مؤهل: " ++ "لا يوجد مقال إجباري") := by
  have hcheck := checkRequiredPublication_of_zero data hpub
  have hnot : (calculateQualificationPoints now data).eligible = false := by
    rw [← Bool.not_eq_true, eligible_iff, hcheck]
    simp
  have hreason : 350 ≤ unroundedTotal data →
      3 ≤ (calculateQualificationPoints now data).teachingYears →
      (calculateQualificationPoints now data).eligibilityReason =
        "غير مؤهل: " ++ "لا يوجد مقال إجباري" := by
    intro hpoints hyears
    have hyears' : 3 ≤ parseIntOrZero (data "teachingYears") := hyears
    rw [eligibilityReason_eq now data hnot, hcheck]
    have hd1 : decide (unroundedTotal data < 350) = false := by
      rw [decide_eq_false_iff_not]
      exact not_lt.mpr hpoints
    have hd2 : decide (parseIntOrZero (data "teachingYears") < 3) = false := by
      rw [decide_eq_false_iff_not]
      omega
    rw [hd1, hd2]
    rfl
  refine ⟨hcheck, hnot, ?_, hreason⟩
  intro hpoints hyears
  apply hreason _ hyears
  obtain ⟨z, hz⟩ := unroundedTotal_integral data hpub
  have hr : (calculateQualificationPoints now data).totalPoints =
      mathRound (unroundedTotal data) := rfl
  rw [hr, hz, mathRound_intCast] at hpoints
  rw [hz]
  exact_mod_cast hpoints

/-- C18 at a concrete record: in the humanities, 400 points from ten
international patents and five teaching years, without publication, are not
eligible, for the missing mandatory publication only. -/
theorem no_publication_not_eligible_witness :
    (∀ key ∈ publicationKeys, parseIntOrZero (noPublicationRecord key) = 0) ∧
    (calculateQualificationPoints "" noPublicationRecord).totalPoints = 400 ∧
    (calculateQualificationPoints "" noPublicationRecord).eligible = false ∧
    (calculateQualificationPoints "" noPublicationRecord).eligibilityReason =
      "غير مؤهل: " ++ "لا يوجد مقال إجباري" :=
  ⟨by decide, by decide!,
    (no_publication_not_eligible "" noPublicationRecord (by decide)).2.1,
    (no_publication_not_eligible "" noPublicationRecord (by decide)).2.2.1
      (by decide!) (by decide)⟩

/-! ## Lenient coercion -/

theorem calculateFieldPoints_congr (value value' : Val) (config : PointRule) (name : String)
    (breakdown : List Entry) (h : parseIntOrZero value' = parseIntOrZero value) :
    calculateFieldPoints value' config name breakdown =
      calculateFieldPoints value config name breakdown := by
  rw [calculateFieldPoints_eq, calculateFieldPoints_eq, h]

theorem calculatePublicationPoints_congr (first second third first' second' third' : Val)
    (p : ℚ) (cap : Option ℚ) (name : String) (breakdown : List Entry)
    (h1 : parseIntOrZero first' = parseIntOrZero first)
    (h2 : parseIntOrZero second' = parseIntOrZero second)
    (h3 : parseIntOrZero third' = parseIntOrZero third) :
    calculatePublicationPoints first' second' third' p cap name breakdown =
      calculatePublicationPoints first second third p cap name breakdown := by
  rw [calculatePublicationPoints_eq, calculatePublicationPoints_eq, h1, h2, h3]

theorem runStep_congr (data data' : Data) (st : ℚ × List Entry) (step : ScoringStep)
    (h : ∀ key ∈ step.keys, parseIntOrZero (data' key) = parseIntOrZero (data key)) :
    runStep data' st step = runStep data st step := by
  cases step with
  | field key config name =>
    simp only [runStep, addField]
    rw [calculateFieldPoints_congr (data key) (data' key) config name st.2
      (h key (by simp [ScoringStep.keys]))]
  | publication k1 k2 k3 config name =>
    simp only [runStep, addPublication]
    rw [calculatePublicationPoints_congr (data k1) (data k2) (data k3) (data' k1) (data' k2)
      (data' k3) config.points config.max name st.2 (h k1 (by simp [ScoringStep.keys]))
      (h k2 (by simp [ScoringStep.keys])) (h k3 (by simp [ScoringStep.keys]))]

theorem accumulatePoints_congr (data data' : Data)
    (h : ∀ key ∈ countKeys, parseIntOrZero (data' key) = parseIntOrZero (data key)) :
    accumulatePoints data' = accumulatePoints data := by
  rw [accumulatePoints_eq_foldl, accumulatePoints_eq_foldl]
  apply List.foldl_ext
  intro st step hstep
  apply runStep_congr
  intro key hkey
  exact h key (List.mem_flatMap.mpr ⟨step, hstep, hkey⟩)

theorem checkRequiredPublication_congr (data other : Data)
    (h : ∀ key ∈ countKeys, parseIntOrZero (other key) = parseIntOrZero (data key))
    (hs : other "specialization" = data "specialization") :
    checkRequiredPublication other = checkRequiredPublication data := by
  have h1 := h "categoryAPlusFirst" (by decide)
  have h2 := h "categoryAPlusSecond" (by decide)
  have h3 := h "categoryAPlusThird" (by decide)
  have h4 := h "categoryAFirst" (by decide)
  have h5 := h "categoryASecond" (by decide)
  have h6 := h "categoryAThird" (by decide)
  have h7 := h "categoryBFirst" (by decide)
  have h8 := h "categoryBSecond" (by decide)
  have h9 := h "categoryBThird" (by decide)
  have h10 := h "categoryCFirst" (by decide)
  have h11 := h "categoryCSecond" (by decide)
  have h12 := h "categoryCThird" (by decide)
  simp only [checkRequiredPublication, h1, h2, h3, h4, h5, h6, h7, h8, h9, h10, h11, h12, hs]

theorem calculateQualificationPoints_congr (now : String) (data other : Data)
    (h : ∀ key ∈ countKeys, parseIntOrZero (other key) = parseIntOrZero (data key))
    (hy : parseIntOrZero (other "teachingYears") = parseIntOrZero (data "teachingYears"))
    (hs : other "specialization" = data "specialization") :
    calculateQualificationPoints now other = calculateQualificationPoints now data := by
  simp only [calculateQualificationPoints, accumulatePoints_congr data other h,
    checkRequiredPublication_congr data other h hs, hy]

theorem countKeys_not_other :
    "teachingYears" ∉ countKeys ∧ "specialization" ∉ countKeys := by
  decide

/-- C20: `calculateQualificationPoints` returns a result for every record (it is
a total function), and a count field whose value `parseInt` cannot read, such
as an absent or an empty one, is treated as 0: replacing the value by the
number 0 leaves the whole result unchanged, so its `totalPoints`, `breakdown`,
`eligible`, `eligibilityReason` and `hasRequiredPublication`. -/
theorem lenient_coercion (now : String) (data : Data) (key : String)
    (hkey : key ∈ countKeys) (hnan : parseInt (data key) = none) :
    calculateQualificationPoints now (setField data key (Val.num 0)) =
      calculateQualificationPoints now data ∧
    (parseInt Val.undefined = none ∧ parseInt (Val.str "") = none ∧
      parseInt (Val.str "abc") = none ∧ parseInt Val.null = none) ∧
    countKeys = simpleFieldKeys.take 11 ++ publicationKeys ++ simpleFieldKeys.drop 11 := by
  refine ⟨?_, by decide, by decide⟩
  have hzero : parseIntOrZero (Val.num 0) = parseIntOrZero (data key) :=
    (parseIntOrZero_unparseable (data key) hnan).symm
  have hne : ∀ k, k ∉ countKeys → setField data key (Val.num 0) k = data k := by
    intro k hk
    apply setField_other
    intro heq
    exact hk (heq ▸ hkey)
  apply calculateQualificationPoints_congr
  · intro k _
    by_cases hk : k = key
    · subst hk
      rw [setField_same, hzero]
    · rw [setField_other data key (Val.num 0) k hk]
  · rw [hne "teachingYears" countKeys_not_other.1]
  · rw [hne "specialization" countKeys_not_other.2]

/-- C20 at a concrete record: the empty `onlineLessons` counts as 0. -/
theorem lenient_coercion_witness :
    "onlineLessons" ∈ countKeys ∧ parseInt (emptyFieldRecord "onlineLessons") = none ∧
    calculateQualificationPoints "" (setField emptyFieldRecord "onlineLessons" (Val.num 0)) =
      calculateQualificationPoints "" emptyFieldRecord :=
  ⟨by decide, by decide,
    (lenient_coercion "" emptyFieldRecord "onlineLessons" (by decide) (by decide)).1⟩

/-! ## The emitted entries and the rounded points -/

theorem scoringSteps_publication_points :
    ∀ step ∈ scoringSteps, step.isField = false → 4 ≤ step.config.points := by
  decide!

theorem capAt_le_raw (raw : ℚ) (cap : Option ℚ) : capAt raw cap ≤ raw := by
  cases cap with
  | none => exact le_refl raw
  | some c =>
    simp only [capAt]
    exact min_le_left _ _

theorem specTierPoints_quarters (a b c : Int) (p : ℚ) (cap : Option ℚ) :
    specTierPoints a b c p cap = capAt (p / 4 * ((4 * a + 2 * b + c : Int) : ℚ)) cap := by
  have h5 : (0.5 : ℚ) = 1 / 2 := by norm_num
  have h25 : (0.25 : ℚ) = 1 / 4 := by norm_num
  unfold specTierPoints
  rw [h5, h25]
  congr 1
  push_cast
  ring

theorem one_le_of_pos_of_den_one (q : ℚ) (hpos : 0 < q) (hden : q.den = 1) : 1 ≤ q := by
  have hq : ((q.num : Int) : ℚ) = q := Rat.coe_int_num_of_den_eq_one hden
  rw [← hq] at hpos ⊢
  have hnum : 0 < q.num := by exact_mod_cast hpos
  exact_mod_cast hnum

theorem stepContribution_ge_one (data : Data) (step : ScoringStep)
    (hstep : step ∈ scoringSteps) (hpos : 0 < stepContribution data step) :
    1 ≤ stepContribution data step := by
  obtain ⟨hp, _, hmax⟩ := scoringSteps_table step hstep
  cases hf : step.isField with
  | true =>
    obtain ⟨z, hz⟩ := stepContribution_integral data step hstep
      (fun h => by rw [hf] at h; cases h)
    rw [hz] at hpos ⊢
    have hzpos : 0 < z := by exact_mod_cast hpos
    exact_mod_cast hzpos
  | false =>
    have h4 := scoringSteps_publication_points step hstep hf
    cases step with
    | field key config name => simp [ScoringStep.isField] at hf
    | publication k1 k2 k3 config name =>
      simp only [ScoringStep.config] at hp hmax h4
      simp only [stepContribution, publicationContribution_eq, specTierPoints_quarters]
        at hpos ⊢
      have hraw := lt_of_lt_of_le hpos (capAt_le_raw _ _)
      have hquarter : (1 : ℚ) ≤ config.points / 4 := by linarith
      have hm : 0 < 4 * parseIntOrZero (data k1) + 2 * parseIntOrZero (data k2) +
          parseIntOrZero (data k3) := by
        by_contra hcon
        have hle : ((4 * parseIntOrZero (data k1) + 2 * parseIntOrZero (data k2) +
            parseIntOrZero (data k3) : Int) : ℚ) ≤ 0 := by exact_mod_cast not_lt.mp hcon
        have := mul_nonpos_of_nonneg_of_nonpos (le_trans zero_le_one hquarter) hle
        linarith
      have hm1 : (1 : ℚ) ≤ ((4 * parseIntOrZero (data k1) + 2 * parseIntOrZero (data k2) +
          parseIntOrZero (data k3) : Int) : ℚ) := by exact_mod_cast hm
      have hrawge : 1 ≤ config.points / 4 * ((4 * parseIntOrZero (data k1) +
          2 * parseIntOrZero (data k2) + parseIntOrZero (data k3) : Int) : ℚ) := by
        nlinarith
      cases hc : config.max with
      | none => simpa [capAt] using hrawge
      | some cap =>
        have hcap := one_le_of_pos_of_den_one cap (hmax cap hc).1 (hmax cap hc).2
        simp only [capAt]
        exact le_min hrawge hcap

theorem stepEntries_eq (data : Data) (step : ScoringStep) :
    ∃ e : Entry, e.name = step.entryName ∧
      e.points = mathRound (stepContribution data step) ∧
      stepEntries data step = if 0 < stepContribution data step then [e] else [] := by
  cases step with
  | field key config name =>
    simp only [stepEntries, runStep, addField, stepContribution, fieldContribution_eq,
      ScoringStep.entryName]
    rw [calculateFieldPoints_eq]
    by_cases h1 : parseIntOrZero (data key) ≤ 0
    · exact ⟨⟨name, mathRound 0, 0, none⟩, rfl, by simp [h1], by simp [h1]⟩
    · by_cases h2 : 0 < specFieldPoints (parseIntOrZero (data key)) config
      · exact ⟨⟨name, mathRound (specFieldPoints (parseIntOrZero (data key)) config),
          parseIntOrZero (data key), none⟩, rfl, by simp [h1], by simp [h1, h2]⟩
      · exact ⟨⟨name, mathRound (specFieldPoints (parseIntOrZero (data key)) config), 0, none⟩,
          rfl, by simp [h1], by simp [h1, h2]⟩
  | publication k1 k2 k3 config name =>
    simp only [stepEntries, runStep, addPublication, stepContribution,
      publicationContribution_eq, ScoringStep.entryName]
    rw [calculatePublicationPoints_eq]
    by_cases h1 : 0 < specTierPoints (parseIntOrZero (data k1)) (parseIntOrZero (data k2))
        (parseIntOrZero (data k3)) config.points config.max
    · exact ⟨⟨name, mathRound (specTierPoints (parseIntOrZero (data k1))
          (parseIntOrZero (data k2)) (parseIntOrZero (data k3)) config.points config.max),
          parseIntOrZero (data k1) + parseIntOrZero (data k2) + parseIntOrZero (data k3),
          some ⟨parseIntOrZero (data k1), parseIntOrZero (data k2),
            parseIntOrZero (data k3)⟩⟩, rfl, rfl, by simp [h1]⟩
    · exact ⟨⟨name, mathRound (specTierPoints (parseIntOrZero (data k1))
          (parseIntOrZero (data k2)) (parseIntOrZero (data k3)) config.points config.max),
          0, none⟩, rfl, rfl, by simp [h1]⟩

theorem accumulated_points_positive (data : Data) (e : Entry)
    (he : e ∈ (accumulatePoints data).2) : 0 < e.points := by
  rw [accumulatePoints_snd, List.mem_flatMap] at he
  obtain ⟨step, hstep, hmem⟩ := he
  obtain ⟨_, hpos, hpoints⟩ := mem_stepEntries data step e hmem
  have hge := stepContribution_ge_one data step hstep hpos
  have hround := le_mathRound_of_le 1 _ (by exact_mod_cast hge)
  omega

theorem breakdown_perm (now : String) (data : Data) :
    List.Perm (calculateQualificationPoints now data).breakdown (accumulatePoints data).2 := by
  have hfilter : (calculateQualificationPoints now data).breakdown =
      sortBreakdown (accumulatePoints data).2 := by
    simp only [calculateQualificationPoints]
    apply List.filter_eq_self.mpr
    intro e he
    have hmem : e ∈ (accumulatePoints data).2 :=
      (List.mem_insertionSort byPointsDescending).mp he
    simpa using accumulated_points_positive data e hmem
  rw [hfilter]
  exact List.perm_insertionSort byPointsDescending _

theorem names_flatMap (data : Data) (steps : List ScoringStep) :
    (steps.flatMap (stepEntries data)).map Entry.name =
      (steps.filter (fun step => decide (0 < stepContribution data step))).map
        ScoringStep.entryName := by
  induction steps with
  | nil => simp
  | cons step rest ih =>
    obtain ⟨e, hn, _, heq⟩ := stepEntries_eq data step
    rw [List.flatMap_cons, List.map_append, ih, heq, List.filter_cons]
    by_cases h : 0 < stepContribution data step
    · simp [h, hn]
    · simp [h]

theorem mathRound_zero : mathRound 0 = 0 := by
  simpa using mathRound_intCast 0

/-! ## Rounding of the entries and of the total -/

/-- C21: there is a record with non-negative integer counts for which the sum
of the points of the returned breakdown and the returned `totalPoints` differ
by exactly 1.  With 45035996273705 first-author A+ articles and one
third-author A article the entries have 4503599627370500 and 23 points (for
22.5), and the total, the double nearest to 4503599627370522.5, is
4503599627370522. -/
theorem breakdown_sum_differs_by_one :
    ∃ data : Data,
      (∀ key ∈ countKeys, 0 ≤ parseIntOrZero (data key)) ∧
      (Doubles.calculateQualificationPoints "" data).breakdown.map Doubles.Entry.points =
        [Doubles.Number.finite 4503599627370500, Doubles.Number.finite 23] ∧
      (Doubles.calculateQualificationPoints "" data).totalPoints =
        Doubles.Number.finite 4503599627370522 ∧
      ∃ total : ℚ,
        (Doubles.calculateQualificationPoints "" data).totalPoints =
          Doubles.Number.finite total ∧
        Doubles.pointsSum (Doubles.calculateQualificationPoints "" data).breakdown =
          some (total + 1) :=
  ⟨roundingRecord, by decide, by decide!, by decide!, 4503599627370522, by decide!,
    by decide!⟩

/-! ## Determinism and the answers of the handler -/

/-- C22: two calls of `calculateQualificationPoints`, at any two times, on
records that agree on the keys the function reads (so on identical records)
return the same `totalPoints`, `eligible`, `eligibilityReason`, `breakdown`,
`teachingYears` and `hasRequiredPublication`; `calculatedAt` is the time of the
call. -/
theorem calculateQualificationPoints_deterministic (now later : String) (data other : Data)
    (hsame : ∀ key ∈ "teachingYears" :: "specialization" :: countKeys, other key = data key) :
    (calculateQualificationPoints later other).totalPoints =
      (calculateQualificationPoints now data).totalPoints ∧
    (calculateQualificationPoints later other).eligible =
      (calculateQualificationPoints now data).eligible ∧
    (calculateQualificationPoints later other).eligibilityReason =
      (calculateQualificationPoints now data).eligibilityReason ∧
    (calculateQualificationPoints later other).breakdown =
      (calculateQualificationPoints now data).breakdown ∧
    (calculateQualificationPoints later other).teachingYears =
      (calculateQualificationPoints now data).teachingYears ∧
    (calculateQualificationPoints later other).hasRequiredPublication =
      (calculateQualificationPoints now data).hasRequiredPublication ∧
    (calculateQualificationPoints now data).calculatedAt = now ∧
    (calculateQualificationPoints later other).calculatedAt = later := by
  have hcongr : calculateQualificationPoints later other =
      calculateQualificationPoints later data := by
    apply calculateQualificationPoints_congr
    · intro key hkey
      rw [hsame key (List.mem_cons_of_mem _ (List.mem_cons_of_mem _ hkey))]
    · rw [hsame "teachingYears" (List.mem_cons_self _ _)]
    · exact hsame "specialization" (List.mem_cons_of_mem _ (List.mem_cons_self _ _))
  rw [hcongr]
  exact ⟨rfl, rfl, rfl, rfl, rfl, rfl, rfl, rfl⟩

/-- C22 at a concrete record: two calls at different times on the same record
return the same total and the same breakdown. -/
theorem calculateQualificationPoints_deterministic_witness :
    (calculateQualificationPoints "2025-01-02T00:00:00.000Z" tenLessonsRecord).totalPoints =
      (calculateQualificationPoints "2025-01-01T00:00:00.000Z" tenLessonsRecord).totalPoints ∧
    (calculateQualificationPoints "2025-01-02T00:00:00.000Z" tenLessonsRecord).breakdown =
      (calculateQualificationPoints "2025-01-01T00:00:00.000Z" tenLessonsRecord).breakdown :=
  ⟨(calculateQualificationPoints_deterministic "2025-01-01T00:00:00.000Z"
      "2025-01-02T00:00:00.000Z" tenLessonsRecord tenLessonsRecord (fun _ _ => rfl)).1,
    (calculateQualificationPoints_deterministic "2025-01-01T00:00:00.000Z"
      "2025-01-02T00:00:00.000Z" tenLessonsRecord tenLessonsRecord (fun _ _ => rfl)).2.2.2.1⟩

/-- C23: `handleCalculate` answers with status 422 and a body of `error` and
`details` exactly when `validateInputData` throws, the details being the
message thrown; otherwise it answers with status 200 and the result of
`calculateQualificationPoints`.  A body that is a result comes from an accepted
record only. -/
theorem handleCalculate_outcomes (now : String) (data : Data) :
    ((∃ message, validateInputData data = Except.error message) ↔
      (handleCalculate now data).status = 422) ∧
    (∀ message, validateInputData data = Except.error message →
      handleCalculate now data =
        { status := 422, body := ResponseBody.failure "خطأ في الحساب" message now }) ∧
    (validateInputData data = Except.ok () →
      handleCalculate now data =
        { status := 200, body := ResponseBody.result (calculateQualificationPoints now data) }) ∧
    ((handleCalculate now data).status = 422 ∨ (handleCalculate now data).status = 200) ∧
    (∀ r, (handleCalculate now data).body = ResponseBody.result r →
      validateInputData data = Except.ok () ∧ (handleCalculate now data).status = 200 ∧
        r = calculateQualificationPoints now data) ∧
    (∀ error details timestamp,
      (handleCalculate now data).body = ResponseBody.failure error details timestamp →
      validateInputData data = Except.error details ∧
        (handleCalculate now data).status = 422) := by
  cases hv : validateInputData data with
  | error message =>
    simp [handleCalculate, hv]
  | ok u =>
    cases u
    simp [handleCalculate, hv]

/-- C23 at concrete records: one teaching year is answered with 422 and the
message thrown, four first-author A articles with 200 and the result. -/
theorem handleCalculate_outcomes_witness :
    validateInputData lowYearsRecord = Except.error minTeachingYearsMessage ∧
    handleCalculate "" lowYearsRecord =
      { status := 422,
        body := ResponseBody.failure "خطأ في الحساب" minTeachingYearsMessage "" } ∧
    validateInputData fourArticlesRecord = Except.ok () ∧
    handleCalculate "" fourArticlesRecord =
      { status := 200,
        body := ResponseBody.result (calculateQualificationPoints "" fourArticlesRecord) } :=
  ⟨by rfl, (handleCalculate_outcomes "" lowYearsRecord).2.1 minTeachingYearsMessage (by rfl),
    by rfl, (handleCalculate_outcomes "" fourArticlesRecord).2.2.1 (by rfl)⟩

/-! ## The tier preview of the client -/

theorem specTierPoints_nonneg (a b c : Int) (p : ℚ) (cap : Option ℚ)
    (ha : 0 ≤ a) (hb : 0 ≤ b) (hc : 0 ≤ c) (hp : 0 ≤ p) (hcap : ∀ m ∈ cap, 0 ≤ m) :
    0 ≤ specTierPoints a b c p cap := by
  rw [specTierPoints_quarters]
  have hm : (0 : ℚ) ≤ ((4 * a + 2 * b + c : Int) : ℚ) := by
    have : 0 ≤ 4 * a + 2 * b + c := by omega
    exact_mod_cast this
  have hraw : 0 ≤ p / 4 * ((4 * a + 2 * b + c : Int) : ℚ) := mul_nonneg (by linarith) hm
  cases cap with
  | none => simpa [capAt] using hraw
  | some m =>
    simp only [capAt]
    exact le_min hraw (hcap m rfl)

theorem specTierPoints_ge_one (a b c : Int) (p : ℚ) (cap : Option ℚ) (h4 : 4 ≤ p)
    (hcap : ∀ m ∈ cap, 1 ≤ m) (hpos : 0 < specTierPoints a b c p cap) :
    1 ≤ specTierPoints a b c p cap := by
  rw [specTierPoints_quarters] at hpos ⊢
  have hraw := lt_of_lt_of_le hpos (capAt_le_raw _ _)
  have hquarter : (1 : ℚ) ≤ p / 4 := by linarith
  have hm : 0 < 4 * a + 2 * b + c := by
    by_contra hcon
    have hle : ((4 * a + 2 * b + c : Int) : ℚ) ≤ 0 := by exact_mod_cast not_lt.mp hcon
    have := mul_nonpos_of_nonneg_of_nonpos (le_trans zero_le_one hquarter) hle
    linarith
  have hm1 : (1 : ℚ) ≤ ((4 * a + 2 * b + c : Int) : ℚ) := by exact_mod_cast hm
  have hrawge : 1 ≤ p / 4 * ((4 * a + 2 * b + c : Int) : ℚ) := by nlinarith
  cases cap with
  | none => simpa [capAt] using hrawge
  | some m =>
    simp only [capAt]
    exact le_min hrawge (hcap m rfl)

theorem tierSummary_eq (form : String → String) (category : String) (rule : PointRule)
    (hlookup : appConfigPoints.lookup ("category" ++ category) = some rule)
    (hcap : ∀ m ∈ rule.max, 1 ≤ m) :
    tierSummary form category =
      some { total := parseIntOrZero (Val.str (form ("category" ++ category ++ "First"))) +
               parseIntOrZero (Val.str (form ("category" ++ category ++ "Second"))) +
               parseIntOrZero (Val.str (form ("category" ++ category ++ "Third"))),
             points := mathRound (specTierPoints
               (parseIntOrZero (Val.str (form ("category" ++ category ++ "First"))))
               (parseIntOrZero (Val.str (form ("category" ++ category ++ "Second"))))
               (parseIntOrZero (Val.str (form ("category" ++ category ++ "Third"))))
               rule.points rule.max) } := by
  have h5 : (0.5 : ℚ) = 1 / 2 := by norm_num
  have h25 : (0.25 : ℚ) = 1 / 4 := by norm_num
  simp only [tierSummary, hlookup, specTierPoints, h5, h25]
  cases hmax : rule.max with
  | none => rfl
  | some m =>
    have hm : m ≠ 0 := by
      have := hcap m hmax
      intro h0
      rw [h0] at this
      norm_num at this
    simp only [capAt, if_pos hm]

/-- C24: for each of the four tiers and every triple of non-negative counts,
the points that `updatePublicationSummaries` displays are `Math.round` of the
value the worker's `calculatePublicationPoints` returns for the same counts;
when they are not 0 they are the points of the entry the worker appends, and
they are 0 exactly when the worker appends no entry. -/
theorem tier_preview_agrees (form : String → String) (category : String) (rule : PointRule)
    (hcat : (category, rule) ∈ [("APlus", pointsConfig.categoryAPlus),
      ("A", pointsConfig.categoryA), ("B", pointsConfig.categoryB),
      ("C", pointsConfig.categoryC)])
    (first second third : Val) (name : String) (breakdown : List Entry)
    (h1 : parseIntOrZero first =
      parseIntOrZero (Val.str (form ("category" ++ category ++ "First"))))
    (h2 : parseIntOrZero second =
      parseIntOrZero (Val.str (form ("category" ++ category ++ "Second"))))
    (h3 : parseIntOrZero third =
      parseIntOrZero (Val.str (form ("category" ++ category ++ "Third"))))
    (hn1 : 0 ≤ parseIntOrZero first) (hn2 : 0 ≤ parseIntOrZero second)
    (hn3 : 0 ≤ parseIntOrZero third) :
    ∃ summary : TierSummary,
      tierSummary form category = some summary ∧
      some summary ∈ updatePublicationSummaries form ∧
      summary.points = mathRound
        (calculatePublicationPoints first second third rule.points rule.max name breakdown).1 ∧
      (summary.points ≠ 0 →
        (calculatePublicationPoints first second third rule.points rule.max name breakdown).2 =
          breakdown ++ [{ name := name, points := summary.points, count := summary.total,
                          details := some { firstAuthor := parseIntOrZero first,
                                            secondAuthor := parseIntOrZero second,
                                            thirdAuthorPlus := parseIntOrZero third } }]) ∧
      (summary.points = 0 ↔
        (calculatePublicationPoints first second third rule.points rule.max name breakdown).2 =
          breakdown) := by
  have htable : appConfigPoints.lookup ("category" ++ category) = some rule ∧
      4 ≤ rule.points ∧ (∀ m ∈ rule.max, 1 ≤ m) ∧ category ∈ categories := by
    simp only [List.mem_cons, Prod.mk.injEq, List.mem_singleton, List.mem_nil_iff,
      or_false] at hcat
    rcases hcat with ⟨rfl, rfl⟩ | ⟨rfl, rfl⟩ | ⟨rfl, rfl⟩ | ⟨rfl, rfl⟩
    · exact ⟨by rfl, by norm_num [pointsConfig], by simp [pointsConfig], by decide⟩
    · exact ⟨by rfl, by norm_num [pointsConfig], by simp [pointsConfig], by decide⟩
    · exact ⟨by rfl, by norm_num [pointsConfig], by simp [pointsConfig], by decide⟩
    · exact ⟨by rfl, by norm_num [pointsConfig], by norm_num [pointsConfig], by decide⟩
  obtain ⟨hlookup, h4, hcap, hmem⟩ := htable
  have hsummary := tierSummary_eq form category rule hlookup hcap
  rw [← h1, ← h2, ← h3] at hsummary
  have hnonneg := specTierPoints_nonneg (parseIntOrZero first) (parseIntOrZero second)
    (parseIntOrZero third) rule.points rule.max hn1 hn2 hn3 (by linarith)
    (fun m hm => le_trans zero_le_one (hcap m hm))
  refine ⟨_, hsummary, List.mem_map.mpr ⟨category, hmem, hsummary⟩, ?_, ?_, ?_⟩
  · rw [calculatePublicationPoints_eq]
    split_ifs <;> rfl
  · intro hne
    rw [calculatePublicationPoints_eq]
    split_ifs with hpos
    · rfl
    · exfalso
      apply hne
      have h0 := le_antisymm (not_lt.mp hpos) hnonneg
      simp only [h0]
      exact mathRound_zero
  · rw [calculatePublicationPoints_eq]
    split_ifs with hpos
    · have hge := specTierPoints_ge_one _ _ _ _ _ h4 hcap hpos
      have hround := le_mathRound_of_le 1 _ (by exact_mod_cast hge)
      constructor
      · intro h0
        simp only at h0
        omega
      · intro hlist
        have hlen := congrArg List.length hlist
        simp at hlen
    · have h0 := le_antisymm (not_lt.mp hpos) hnonneg
      simp only [h0, mathRound_zero]

/-- C24 at a concrete form: one first-author and three third-author A articles
are displayed as 158 points, the points of the entry of the worker. -/
theorem tier_preview_agrees_witness :
    tierSummary tierAForm "A" = some { total := 4, points := 158 } ∧
    (calculatePublicationPoints (Val.num 1) (Val.num 0) (Val.num 3)
        pointsConfig.categoryA.points pointsConfig.categoryA.max "" []).2 =
      [{ name := "", points := 158, count := 4,
         details := some { firstAuthor := 1, secondAuthor := 0, thirdAuthorPlus := 3 } }] ∧
    ∃ summary : TierSummary, tierSummary tierAForm "A" = some summary ∧
      summary.points = mathRound
        (calculatePublicationPoints (Val.num 1) (Val.num 0) (Val.num 3)
          pointsConfig.categoryA.points pointsConfig.categoryA.max "" []).1 :=
  ⟨by decide!, by decide!,
    (tier_preview_agrees tierAForm "A" pointsConfig.categoryA (by simp)
      (Val.num 1) (Val.num 0) (Val.num 3) "" [] (by decide) (by decide) (by decide)
      (by decide) (by decide) (by decide)).imp (fun _ h => ⟨h.1, h.2.2.1⟩)⟩

/-! ## One entry for each positive contribution -/

theorem breakdown_names_perm (now : String) (data : Data) :
    List.Perm ((calculateQualificationPoints now data).breakdown.map Entry.name)
      ((scoringSteps.filter (fun step => decide (0 < stepContribution data step))).map
        ScoringStep.entryName) := by
  have h := (breakdown_perm now data).map Entry.name
  rw [accumulatePoints_snd, names_flatMap] at h
  exact h

theorem positive_names_nodup (data : Data) :
    ((scoringSteps.filter (fun step => decide (0 < stepContribution data step))).map
      ScoringStep.entryName).Nodup :=
  List.Nodup.sublist ((List.filter_sublist scoringSteps).map ScoringStep.entryName)
    scoringSteps_names_nodup

theorem mem_positive_names (data : Data) (step : ScoringStep) (hstep : step ∈ scoringSteps) :
    step.entryName ∈
        (scoringSteps.filter (fun step => decide (0 < stepContribution data step))).map
          ScoringStep.entryName ↔
      0 < stepContribution data step := by
  rw [List.mem_map]
  constructor
  · rintro ⟨other, hother, hname⟩
    rw [List.mem_filter] at hother
    have heq : other = step :=
      List.inj_on_of_nodup_map scoringSteps_names_nodup hother.1 hstep hname
    rw [← heq]
    simpa using hother.2
  · intro hpos
    exact ⟨step, List.mem_filter.mpr ⟨hstep, by simpa using hpos⟩, rfl⟩

/-- C25: the returned breakdown is a rearrangement of the entries the 27
scoring statements emitted (the sort and the filter drop and duplicate none);
its names are those of the statements with a strictly positive contribution,
each exactly once, so they are pairwise distinct and at most 27; every entry
has the points of its statement's contribution, rounded. -/
theorem breakdown_one_entry_per_positive (now : String) (data : Data) :
    List.Perm (calculateQualificationPoints now data).breakdown (accumulatePoints data).2 ∧
    List.Perm ((calculateQualificationPoints now data).breakdown.map Entry.name)
      ((scoringSteps.filter (fun step => decide (0 < stepContribution data step))).map
        ScoringStep.entryName) ∧
    ((calculateQualificationPoints now data).breakdown.map Entry.name).Nodup ∧
    (calculateQualificationPoints now data).breakdown.length ≤ 27 ∧
    scoringSteps.length = 27 ∧
    (∀ step ∈ scoringSteps,
      ((calculateQualificationPoints now data).breakdown.map Entry.name).count
          step.entryName =
        if 0 < stepContribution data step then 1 else 0) ∧
    (∀ e ∈ (calculateQualificationPoints now data).breakdown,
      ∃ step ∈ scoringSteps, e.name = step.entryName ∧ 0 < stepContribution data step ∧
        e.points = mathRound (stepContribution data step)) := by
  have hperm := breakdown_names_perm now data
  have hnodup := positive_names_nodup data
  refine ⟨breakdown_perm now data, hperm, hperm.nodup_iff.mpr hnodup, ?_, rfl, ?_, ?_⟩
  · have hlen := hperm.length_eq
    rw [List.length_map, List.length_map] at hlen
    rw [hlen]
    exact le_trans (List.length_filter_le _ _) (le_of_eq rfl)
  · intro step hstep
    rw [hperm.count_eq]
    split_ifs with hpos
    · exact List.count_eq_one_of_mem hnodup ((mem_positive_names data step hstep).mpr hpos)
    · exact List.count_eq_zero_of_not_mem
        (fun hmem => hpos ((mem_positive_names data step hstep).mp hmem))
  · intro e he
    obtain ⟨⟨step, hstep, hmem⟩, _⟩ := (mem_breakdown_iff now data e).mp he
    exact ⟨step, hstep, mem_stepEntries data step e hmem⟩

/-- C25 at a concrete record: ten yearly lessons and two first-author B
articles give two entries, that of tier B first, and one entry named after the
yearly lessons. -/
theorem breakdown_one_entry_per_positive_witness :
    (calculateQualificationPoints "" tenLessonsRecord).breakdown.map Entry.name =
      ["مقالات الصنف \"ب\" الدولية", "الدروس السنوية"] ∧
    ((calculateQualificationPoints "" tenLessonsRecord).breakdown.map Entry.name).count
        "الدروس السنوية" =
      if 0 < stepContribution tenLessonsRecord
          (ScoringStep.field "lessonsPerYear" pointsConfig.lessonsPerYear "الدروس السنوية")
      then 1 else 0 :=
  ⟨by decide!,
    (breakdown_one_entry_per_positive "" tenLessonsRecord).2.2.2.2.2.1
      (ScoringStep.field "lessonsPerYear" pointsConfig.lessonsPerYear "الدروس السنوية")
      (List.mem_cons_self _ _)⟩

/-! ## Raising a publication count -/

theorem setField_count_le (data : Data) (key : String) (value : Val)
    (hle : parseIntOrZero (data key) ≤ parseIntOrZero value) (k : String) :
    parseIntOrZero (data k) ≤ parseIntOrZero (setField data key value k) := by
  by_cases hk : k = key
  · subst hk
    rw [setField_same]
    exact hle
  · rw [setField_other data key value k hk]

theorem specTierPoints_mono (a b c a2 b2 c2 : Int) (p : ℚ) (cap : Option ℚ) (hp : 0 ≤ p)
    (ha : a ≤ a2) (hb : b ≤ b2) (hc : c ≤ c2) :
    specTierPoints a b c p cap ≤ specTierPoints a2 b2 c2 p cap := by
  rw [specTierPoints_quarters, specTierPoints_quarters]
  apply capAt_mono
  have hm : ((4 * a + 2 * b + c : Int) : ℚ) ≤ ((4 * a2 + 2 * b2 + c2 : Int) : ℚ) := by
    have : 4 * a + 2 * b + c ≤ 4 * a2 + 2 * b2 + c2 := by omega
    exact_mod_cast this
  exact mul_le_mul_of_nonneg_left hm (by linarith)

theorem field_step_keys (step : ScoringStep) (hstep : step ∈ scoringSteps)
    (hfield : step.isField = true) : ∀ key ∈ step.keys, key ∈ simpleFieldKeys := by
  intro key hkey
  simp only [simpleFieldKeys, List.mem_flatMap, List.mem_filter]
  exact ⟨step, ⟨hstep, hfield⟩, hkey⟩

theorem stepContribution_publication_mono (data : Data) (key : String) (value : Val)
    (hkey : key ∈ publicationKeys)
    (hle : parseIntOrZero (data key) ≤ parseIntOrZero value)
    (step : ScoringStep) (hstep : step ∈ scoringSteps) :
    stepContribution data step ≤ stepContribution (setField data key value) step := by
  obtain ⟨hp, _, _⟩ := scoringSteps_table step hstep
  cases step with
  | field k config name =>
    have hk : k ≠ key := by
      intro heq
      have hsimple := field_step_keys _ hstep rfl k (by simp [ScoringStep.keys])
      exact simple_keys_not_publication k hsimple (heq ▸ hkey)
    simp only [stepContribution]
    rw [setField_other data key value k hk]
  | publication k1 k2 k3 config name =>
    simp only [ScoringStep.config] at hp
    simp only [stepContribution, publicationContribution_eq]
    exact specTierPoints_mono _ _ _ _ _ _ _ _ (le_of_lt hp)
      (setField_count_le data key value hle k1) (setField_count_le data key value hle k2)
      (setField_count_le data key value hle k3)

theorem checkRequiredPublication_mono (data other : Data)
    (hs : other "specialization" = data "specialization")
    (hle : ∀ k, parseIntOrZero (data k) ≤ parseIntOrZero (other k))
    (h : checkRequiredPublication data = true) : checkRequiredPublication other = true := by
  have h1 := hle "categoryAPlusFirst"
  have h2 := hle "categoryAPlusSecond"
  have h3 := hle "categoryAPlusThird"
  have h4 := hle "categoryAFirst"
  have h5 := hle "categoryASecond"
  have h6 := hle "categoryAThird"
  have h7 := hle "categoryBFirst"
  have h8 := hle "categoryBSecond"
  have h9 := hle "categoryBThird"
  have h10 := hle "categoryCFirst"
  have h11 := hle "categoryCSecond"
  have h12 := hle "categoryCThird"
  simp only [checkRequiredPublication, hs] at h ⊢
  split_ifs at h ⊢ with hsci hhum
  · simp only [Bool.or_eq_true, decide_eq_true_eq, gt_iff_lt] at h ⊢
    omega
  · simp only [Bool.or_eq_true, decide_eq_true_eq, gt_iff_lt] at h ⊢
    omega

theorem publicationKeys_not_other :
    "teachingYears" ∉ publicationKeys ∧ "specialization" ∉ publicationKeys := by
  decide

/-- C26: replacing the value of one publication count by a value whose coerced
count is at least as large, all other fields unchanged, does not decrease
`totalPoints`, keeps `hasRequiredPublication` true when it was true, and keeps
`eligible` true when it was true. -/
theorem publication_count_monotone (now : String) (data : Data) (key : String) (value : Val)
    (hkey : key ∈ publicationKeys)
    (hle : parseIntOrZero (data key) ≤ parseIntOrZero value) :
    (calculateQualificationPoints now data).totalPoints ≤
      (calculateQualificationPoints now (setField data key value)).totalPoints ∧
    ((calculateQualificationPoints now data).hasRequiredPublication = true →
      (calculateQualificationPoints now (setField data key value)).hasRequiredPublication =
        true) ∧
    ((calculateQualificationPoints now data).eligible = true →
      (calculateQualificationPoints now (setField data key value)).eligible = true) := by
  have hsum : unroundedTotal data ≤ unroundedTotal (setField data key value) := by
    rw [unroundedTotal_eq_steps, unroundedTotal_eq_steps]
    apply List.sum_le_sum
    intro step hstep
    exact stepContribution_publication_mono data key value hkey hle step hstep
  have hspec : setField data key value "specialization" = data "specialization" :=
    setField_other data key value _ (fun h => publicationKeys_not_other.2 (h ▸ hkey))
  have hyears : setField data key value "teachingYears" = data "teachingYears" :=
    setField_other data key value _ (fun h => publicationKeys_not_other.1 (h ▸ hkey))
  have hcheck : checkRequiredPublication data = true →
      checkRequiredPublication (setField data key value) = true :=
    checkRequiredPublication_mono data _ hspec (setField_count_le data key value hle)
  refine ⟨mathRound_mono _ _ hsum, hcheck, fun hel => ?_⟩
  rw [eligible_iff] at hel ⊢
  rw [hyears]
  exact ⟨le_trans hel.1 hsum, hel.2.1, hcheck hel.2.2⟩

/-- C26 at a concrete record: a fourth first-author A article after two turns
180 points, not eligible, into at least as many points. -/
theorem publication_count_monotone_witness :
    "categoryAFirst" ∈ publicationKeys ∧
    parseIntOrZero (twoArticlesRecord "categoryAFirst") ≤ parseIntOrZero (Val.num 4) ∧
    (calculateQualificationPoints "" twoArticlesRecord).totalPoints ≤
      (calculateQualificationPoints ""
        (setField twoArticlesRecord "categoryAFirst" (Val.num 4))).totalPoints :=
  ⟨by decide, by decide,
    (publication_count_monotone "" twoArticlesRecord "categoryAFirst" (Val.num 4)
      (by decide) (by decide)).1⟩

/-! ## Negative counts -/

/-- C27, evaluation at the failing input: a count of -1 first-author A+
articles is worth -100 points and makes the returned total -85, while the same
count in a simple field is worth 0; the strict validation accepts the record. -/
theorem negative_publication_count_scores_negative :
    (calculatePublicationPoints (Val.num (-1)) Val.undefined Val.undefined
        pointsConfig.categoryAPlus.points pointsConfig.categoryAPlus.max
        "مقالات الصنف \"أ+\" الدولية" []) = (-100, []) ∧
    (calculateFieldPoints (Val.num (-1)) pointsConfig.lessonsPerYear "الدروس السنوية" []) =
      (0, []) ∧
    negativeCountRecord "categoryAPlusFirst" = Val.num (-1) ∧
    stepContribution negativeCountRecord
      (ScoringStep.publication "categoryAPlusFirst" "categoryAPlusSecond" "categoryAPlusThird"
        pointsConfig.categoryAPlus "مقالات الصنف \"أ+\" الدولية") = -100 ∧
    (calculateQualificationPoints "" negativeCountRecord).totalPoints = -85 ∧
    validateInputData negativeCountRecord = Except.ok () := by
  refine ⟨by decide!, by decide!, by decide, by decide!, by decide!, by rfl⟩

/-! ## Capped fields alone -/

theorem cap_sum : (scoringSteps.map (fun step => step.config.max.getD 0)).sum = 347 := by
  decide!

/-- C28: when the count of every field without cap is 0 (`onlineLessons`,
`pedagogicalPublications`, `universityEnvironment`, `pedagogicalAnimation`, the
nine counts of tiers A+, A and B, `internationalPatents`, `nationalPatents`,
`indexedProceedings`, `phdSupervision`, `scientificPublications`,
`phdTraining`), the returned total is at most 347, the sum of the 14 caps, and
`eligible` is false. -/
theorem capped_fields_below_threshold (now : String) (data : Data)
    (hzero : ∀ key ∈ (scoringSteps.filter (fun step => step.config.max.isNone)).flatMap
      ScoringStep.keys, parseIntOrZero (data key) = 0) :
    (calculateQualificationPoints now data).totalPoints ≤ 347 ∧
    (calculateQualificationPoints now data).eligible = false ∧
    unroundedTotal data ≤ 347 ∧
    (scoringSteps.map (fun step => step.config.max.getD 0)).sum = 347 ∧
    (scoringSteps.filter (fun step => step.config.max.isNone)).flatMap ScoringStep.keys =
      ["onlineLessons", "pedagogicalPublications", "universityEnvironment",
       "pedagogicalAnimation", "categoryAPlusFirst", "categoryAPlusSecond",
       "categoryAPlusThird", "categoryAFirst", "categoryASecond", "categoryAThird",
       "categoryBFirst", "categoryBSecond", "categoryBThird", "internationalPatents",
       "nationalPatents", "indexedProceedings", "phdSupervision", "scientificPublications",
       "phdTraining"] := by
  have hbound : ∀ step ∈ scoringSteps,
      stepContribution data step ≤ step.config.max.getD 0 := by
    intro step hstep
    cases hmax : step.config.max with
    | none =>
      have hz := stepContribution_eq_zero data step hstep
        (fun key hkey => hzero key (List.mem_flatMap.mpr
          ⟨step, List.mem_filter.mpr ⟨hstep, by simp [hmax]⟩, hkey⟩))
      simp [hz]
    | some cap =>
      simpa using stepContribution_le_cap data step hstep cap hmax
  have hsum : unroundedTotal data ≤ 347 := by
    rw [unroundedTotal_eq_steps, ← cap_sum]
    exact List.sum_le_sum hbound
  refine ⟨?_, ?_, hsum, cap_sum, by decide⟩
  · have hr : (calculateQualificationPoints now data).totalPoints =
        mathRound (unroundedTotal data) := rfl
    have hmono := mathRound_mono _ _ hsum
    have h347 : mathRound 347 = 347 := mathRound_intCast 347
    rw [hr]
    omega
  · rw [← Bool.not_eq_true, eligible_iff]
    rintro ⟨h350, _, _⟩
    linarith

/-- C28 at a concrete record: every capped field above its cap gives exactly
347 points and no eligibility. -/
theorem capped_fields_below_threshold_witness :
    (calculateQualificationPoints "" cappedOnlyRecord).totalPoints = 347 ∧
    (calculateQualificationPoints "" cappedOnlyRecord).totalPoints ≤ 347 ∧
    (calculateQualificationPoints "" cappedOnlyRecord).eligible = false :=
  ⟨by decide!,
    (capped_fields_below_threshold "" cappedOnlyRecord (by decide)).1,
    (capped_fields_below_threshold "" cappedOnlyRecord (by decide)).2.1⟩

/-! ## The success message -/

theorem failing_reason_texts (pointsFail yearsFail publicationFail : Bool)
    (h : pointsFail = true ∨ yearsFail = true ∨ publicationFail = true) :
    failingDescriptions pointsFail yearsFail publicationFail ≠ [] ∧
    ineligiblePrefix ++ reasonSeparator.intercalate
        (failingDescriptions pointsFail yearsFail publicationFail) ≠ ineligiblePrefix ∧
    ineligiblePrefix ++ reasonSeparator.intercalate
        (failingDescriptions pointsFail yearsFail publicationFail) ≠ eligibleMessage := by
  cases pointsFail <;> cases yearsFail <;> cases publicationFail <;>
    first
    | decide!
    | (exfalso; simp at h)

theorem double_lt_of_ge_false (x : Doubles.Number) (c : ℚ) (hx : x ≠ Doubles.Number.nan)
    (h : Doubles.ge x (Doubles.Number.finite c) = false) :
    Doubles.lt x (Doubles.Number.finite c) = true := by
  cases x with
  | finite a =>
    simp only [Doubles.ge, Doubles.le, decide_eq_false_iff_not, not_le] at h
    simpa [Doubles.lt] using h
  | posInf => simp [Doubles.ge, Doubles.le] at h
  | negInf => rfl
  | nan => exact absurd rfl hx

theorem double_orZero_ne_nan (x : Doubles.Number) : Doubles.orZero x ≠ Doubles.Number.nan := by
  cases x <;> simp [Doubles.orZero]

theorem double_collectReasons_eq (totalPoints teachingYears : Doubles.Number)
    (hasRequiredPublication : Bool) :
    Doubles.collectReasons totalPoints teachingYears hasRequiredPublication =
      failingDescriptions (Doubles.lt totalPoints (Doubles.Number.finite 350))
        (Doubles.lt teachingYears (Doubles.Number.finite 3)) (!hasRequiredPublication) := by
  unfold Doubles.collectReasons failingDescriptions minPoints
  cases Doubles.lt totalPoints (Doubles.Number.finite 350) <;>
    cases Doubles.lt teachingYears (Doubles.Number.finite 3) <;>
    cases hasRequiredPublication <;> simp

theorem double_eligible_iff (now : String) (data : Data) :
    (Doubles.calculateQualificationPoints now data).eligible = true ↔
      (Doubles.ge (Doubles.accumulatePoints data).1 (Doubles.Number.finite 350) = true ∧
        Doubles.ge (Doubles.orZero (Doubles.parseInt (data "teachingYears")))
          (Doubles.Number.finite 3) = true ∧
        Doubles.checkRequiredPublication data = true) := by
  simp only [Doubles.calculateQualificationPoints, minPoints]
  split_ifs with h
  · simpa [and_assoc] using h
  · simpa [and_assoc] using h

theorem double_reason_of_eligible (now : String) (data : Data)
    (h : (Doubles.calculateQualificationPoints now data).eligible = true) :
    (Doubles.calculateQualificationPoints now data).eligibilityReason = eligibleMessage := by
  simp only [Doubles.calculateQualificationPoints] at h ⊢
  split_ifs at h ⊢ with hc
  rfl

theorem double_reason_of_ineligible (now : String) (data : Data)
    (h : (Doubles.calculateQualificationPoints now data).eligible = false) :
    (Doubles.calculateQualificationPoints now data).eligibilityReason =
      ineligiblePrefix ++ reasonSeparator.intercalate
        (failingDescriptions
          (Doubles.lt (Doubles.accumulatePoints data).1 (Doubles.Number.finite 350))
          (Doubles.lt (Doubles.orZero (Doubles.parseInt (data "teachingYears")))
            (Doubles.Number.finite 3))
          (!Doubles.checkRequiredPublication data)) := by
  rw [← double_collectReasons_eq]
  simp only [Doubles.calculateQualificationPoints] at h ⊢
  split_ifs at h ⊢ with hc
  rfl

/-- C29, counterexample: with a first-author A+ count of 400 digits, the
opposite second-author count and one first-author B article (sciences, five
teaching years), the total is `NaN`; the record passes the strict validation,
`eligible` is false and the reason is the bare prefix, with no failing
condition listed. -/
theorem nan_total_gives_bare_prefix :
    validateInputData overflowRecord = Except.ok () ∧
    (Doubles.calculateQualificationPoints "" overflowRecord).totalPoints =
      Doubles.Number.nan ∧
    (Doubles.calculateQualificationPoints "" overflowRecord).teachingYears =
      Doubles.Number.finite 5 ∧
    (Doubles.calculateQualificationPoints "" overflowRecord).hasRequiredPublication = true ∧
    (Doubles.calculateQualificationPoints "" overflowRecord).eligible = false ∧
    (Doubles.calculateQualificationPoints "" overflowRecord).eligibilityReason =
      "غير مؤهل: " := by
  refine ⟨by rfl, by decide!, by decide!, by decide!, by decide!, by decide!⟩

/-- C29, amended: `eligibilityReason` is the success message if and only if
`eligible` is true; when `eligible` is false and the returned `totalPoints` is
not `NaN`, the reason is the prefix followed by a non-empty list of failing
conditions, so it is not the bare prefix. -/
theorem eligibilityReason_success_iff (now : String) (data : Data) :
    ((Doubles.calculateQualificationPoints now data).eligibilityReason =
        "يحقق جميع المتطلبات: نقاط كافية، سنوات تدريس، مقال إجباري" ↔
      (Doubles.calculateQualificationPoints now data).eligible = true) ∧
    ((Doubles.calculateQualificationPoints now data).eligible = false →
      (Doubles.calculateQualificationPoints now data).totalPoints ≠ Doubles.Number.nan →
      (∃ pointsFail yearsFail publicationFail : Bool,
        (Doubles.calculateQualificationPoints now data).eligibilityReason =
          "غير مؤهل: " ++ "، ".intercalate
            (failingDescriptions pointsFail yearsFail publicationFail) ∧
        failingDescriptions pointsFail yearsFail publicationFail ≠ []) ∧
      (Doubles.calculateQualificationPoints now data).eligibilityReason ≠ "غير مؤهل: ") := by
  have hnot : (Doubles.calculateQualificationPoints now data).eligible = false →
      (Doubles.accumulatePoints data).1 ≠ Doubles.Number.nan →
      (Doubles.lt (Doubles.accumulatePoints data).1 (Doubles.Number.finite 350) = true ∨
        Doubles.lt (Doubles.orZero (Doubles.parseInt (data "teachingYears")))
          (Doubles.Number.finite 3) = true ∨
        (!Doubles.checkRequiredPublication data) = true) := by
    intro hel htotal
    by_contra hcon
    push_neg at hcon
    obtain ⟨h1, h2, h3⟩ := hcon
    have hge1 : Doubles.ge (Doubles.accumulatePoints data).1 (Doubles.Number.finite 350) =
        true := by
      by_contra hge
      exact h1 (double_lt_of_ge_false _ _ htotal (by simpa using hge))
    have hge2 : Doubles.ge (Doubles.orZero (Doubles.parseInt (data "teachingYears")))
        (Doubles.Number.finite 3) = true := by
      by_contra hge
      exact h2 (double_lt_of_ge_false _ _ (double_orZero_ne_nan _) (by simpa using hge))
    have hel2 : (Doubles.calculateQualificationPoints now data).eligible = true :=
      (double_eligible_iff now data).mpr ⟨hge1, hge2, by simpa using h3⟩
    rw [hel] at hel2
    cases hel2
  constructor
  · constructor
    · intro hreason
      by_contra hel
      have hel2 : (Doubles.calculateQualificationPoints now data).eligible = false := by
        simpa using hel
      rw [double_reason_of_ineligible now data hel2] at hreason
      revert hreason
      cases Doubles.lt (Doubles.accumulatePoints data).1 (Doubles.Number.finite 350) <;>
        cases Doubles.lt (Doubles.orZero (Doubles.parseInt (data "teachingYears")))
          (Doubles.Number.finite 3) <;>
        cases Doubles.checkRequiredPublication data <;> decide
    · intro hel
      exact double_reason_of_eligible now data hel
  · intro hel htotal
    have htotal2 : (Doubles.accumulatePoints data).1 ≠ Doubles.Number.nan := by
      intro hnan
      apply htotal
      have hr : (Doubles.calculateQualificationPoints now data).totalPoints =
          Doubles.mathRound (Doubles.accumulatePoints data).1 := rfl
      rw [hr, hnan]
      rfl
    have htexts := failing_reason_texts _ _ _ (hnot hel htotal2)
    refine ⟨⟨_, _, _, double_reason_of_ineligible now data hel, htexts.1⟩, ?_⟩
    rw [double_reason_of_ineligible now data hel]
    exact htexts.2.1

/-- C29, amended, at a concrete record: one teaching year gives a finite total
and a reason other than the bare prefix. -/
theorem eligibilityReason_success_iff_witness :
    (Doubles.calculateQualificationPoints "" lowYearsRecord).eligible = false ∧
    (Doubles.calculateQualificationPoints "" lowYearsRecord).totalPoints =
      Doubles.Number.finite 360 ∧
    (Doubles.calculateQualificationPoints "" lowYearsRecord).eligibilityReason ≠
      "غير مؤهل: " :=
  ⟨by decide!, by decide!,
    ((eligibilityReason_success_iff "" lowYearsRecord).2 (by decide!) (by decide!)).2⟩

/-! ## The local fallback of the client -/

/-- C30: `performLocalCalculation` returns `totalPoints = 0`, `eligible =
false` and an empty breakdown for every input, so its total differs from the
one of `calculateQualificationPoints` on every record whose total is
positive. -/
theorem performLocalCalculation_scores_nothing (now : String) (data : Data) :
    (performLocalCalculation data).totalPoints = 0 ∧
    (performLocalCalculation data).eligible = false ∧
    (performLocalCalculation data).breakdown = [] ∧
    (0 < (calculateQualificationPoints now data).totalPoints →
      (performLocalCalculation data).totalPoints ≠
          (calculateQualificationPoints now data).totalPoints ∧
        (performLocalCalculation data).breakdown ≠
          (calculateQualificationPoints now data).breakdown) := by
  refine ⟨rfl, rfl, rfl, fun hpos => ⟨?_, ?_⟩⟩
  · have h0 : (performLocalCalculation data).totalPoints = 0 := rfl
    omega
  · intro hempty
    have hb : (calculateQualificationPoints now data).breakdown = [] := hempty.symm
    have hr : (calculateQualificationPoints now data).totalPoints =
        mathRound (unroundedTotal data) := rfl
    have hsteps : ∀ step ∈ scoringSteps, stepContribution data step ≤ 0 := by
      intro step hstep
      by_contra hcon
      have hposc := not_le.mp hcon
      obtain ⟨e, _, _, heq⟩ := stepEntries_eq data step
      rw [if_pos hposc] at heq
      have hmem : e ∈ (accumulatePoints data).2 := by
        rw [accumulatePoints_snd, List.mem_flatMap]
        exact ⟨step, hstep, by rw [heq]; exact List.mem_singleton.mpr rfl⟩
      have hin := (breakdown_perm now data).mem_iff.mpr hmem
      rw [hb] at hin
      cases hin
    have hsum : unroundedTotal data ≤ 0 := by
      rw [unroundedTotal_eq_steps]
      have hle := List.sum_le_sum hsteps
      simpa using hle
    have hmono := mathRound_mono _ _ hsum
    rw [mathRound_zero] at hmono
    omega

/-- C30 at a concrete record: the worker gives 360 points and eligibility for
four first-author A articles, the local fallback 0 points and none. -/
theorem performLocalCalculation_scores_nothing_witness :
    (calculateQualificationPoints "" fourArticlesRecord).totalPoints = 360 ∧
    (performLocalCalculation fourArticlesRecord).totalPoints ≠
      (calculateQualificationPoints "" fourArticlesRecord).totalPoints :=
  ⟨by decide!,
    ((performLocalCalculation_scores_nothing "" fourArticlesRecord).2.2.2 (by decide!)).1⟩

end QualificationApp
